import Mathlib

/-!
# Trident: error abstraction of the ONTAP API layer and the Docker volume plugin

A shallow embedding of

* `storage_drivers/ontap/api/abstraction.go` (`APIResponse`, `NewAPIResponse`,
  `GetErrorAbstraction`, the declaration of the interface `OntapAPI`),
* `frontend/docker/plugin.go` (`Plugin.dockerError`, `Plugin.Create`, `Plugin.List`,
  `Plugin.Get`, `Plugin.Path`, `Plugin.Mount`, `Plugin.Unmount`, `Plugin.getPath`),
* the generated readers `fpolicy_event_create_responses.go` and
  `snaplock_retention_operation_delete_responses.go`, and
* the generated models `fc_interface.go` and `cluster_peer_setup_response.go`
  (`Validate`, `ContextValidate`, `UnmarshalBinary`).

Conventions of the embedding.

* A Go `string` is a Lean `String`; a rune is the `Nat` code point of a `Char`.
* A Go `error` interface value is `Option GoError`: `none` is the `nil` error and the
  constructors of `GoError` are the dynamic types that the two files distinguish.
* A Go pointer that may be `nil` is an `Option`.
* A function with a deferred `recover` is split into its body, which ends by returning or by
  panicking, and the deferred closure that runs afterwards.
* Calls on the `core.Orchestrator` interface are state passing over an abstract orchestrator
  state, and every call is recorded in a trace.
* Calls to the logger only write diagnostics and are left out.
* Library functions (`filepath`, `os`, go-openapi) and models declared in other files enter
  as parameters or are modelled after their documented behaviour, and say so.
* The declaration of an interface is a table of its methods with their parameter and result
  types.
* The implementations of `OntapAPI` are not among the files at hand; the destroy operations
  and the LUN comment are modelled from the specification, in definitions that say so.
-/

namespace Trident

/-! ## Go error values -/

/-- The struct `ZapiError` of package `api`. Its declaration is in another file of the package;
the three string fields are those of the ZAPI result it wraps, and `ZapiError{}` is the value
with every field empty. -/
structure ZapiError where
  status : String
  reason : String
  code : String
  deriving DecidableEq, Repr

/-- The composite literal `ZapiError{}`. -/
def ZapiError.zero : ZapiError := ⟨"", "", ""⟩

/-- The dynamic types of `error` values that the code tells apart.

* `errorString s`: the value built by `fmt.Errorf` (without `%w`) or `errors.New`;
* `zapi z`: a `ZapiError` struct value;
* `bootstrap m`: a non-nil `*core.BootstrapError` whose `Error()` is `m` (the type is
  declared in package `core`);
* `other ty s`: an error of any other dynamic type `ty` whose `Error()` is `s`. -/
inductive GoError where
  | errorString (s : String)
  | zapi (z : ZapiError)
  | bootstrap (message : String)
  | other (ty : String) (s : String)
  deriving DecidableEq, Repr

/-- The `error` interface: `none` is `nil`. -/
abbrev Error := Option GoError

/-- The call `fmt.Errorf(text)` for an already formatted text. -/
def Errorf (text : String) : Error := some (GoError.errorString text)

/-! ## `strings.EqualFold` -/

/-- The test "ASCII only, sr/tr must be upper/lower case" of `strings.EqualFold`, applied after
the two runes were ordered as `lo < hi`: `'A' <= lo && lo <= 'Z' && hi == lo+'a'-'A'`. -/
def asciiCasePair (lo hi : Nat) : Bool :=
  decide (65 ≤ lo) && decide (lo ≤ 90) && decide (hi = lo + 97 - 65)

/-- The `hasUnicode` loop of `strings.EqualFold`: both strings are decoded rune by rune.
The Unicode case tables are not part of the repository: `orbit lo hi` stands for the result of
the general case, that is whether walking `unicode.SimpleFold` from `lo` reaches `hi`. -/
def equalFoldUnicode (orbit : Nat → Nat → Bool) : List Char → List Char → Bool
  | [], t => t.isEmpty
  | _ :: _, [] => false
  | sc :: s, tc :: t =>
    let sr := sc.toNat
    let tr := tc.toNat
    if tr = sr then equalFoldUnicode orbit s t
    else
      let lo := if tr < sr then tr else sr
      let hi := if tr < sr then sr else tr
      if hi < 128 then
        if asciiCasePair lo hi then equalFoldUnicode orbit s t else false
      else if orbit lo hi then equalFoldUnicode orbit s t
      else false

/-- The ASCII fast path of `strings.EqualFold`: it runs while both strings have a character
left, jumps to the `hasUnicode` loop at the first character that is not ASCII, and when one
string is exhausted answers whether both are (`len(s) == len(t)`). -/
def equalFoldASCII (orbit : Nat → Nat → Bool) : List Char → List Char → Bool
  | [], t => t.isEmpty
  | s, [] => s.isEmpty
  | sc :: s, tc :: t =>
    let sr := sc.toNat
    let tr := tc.toNat
    if 128 ≤ sr ∨ 128 ≤ tr then equalFoldUnicode orbit (sc :: s) (tc :: t)
    else if tr = sr then equalFoldASCII orbit s t
    else
      let lo := if tr < sr then tr else sr
      let hi := if tr < sr then sr else tr
      if asciiCasePair lo hi then equalFoldASCII orbit s t else false

/-- The function `strings.EqualFold(s, t)`. -/
def EqualFold (orbit : Nat → Nat → Bool) (s t : String) : Bool :=
  equalFoldASCII orbit s.toList t.toList

/-! ## `abstraction.go` -/

/-- The struct `APIResponse`. -/
structure APIResponse where
  apiName : String
  status : String
  reason : String
  errno : String
  deriving DecidableEq, Repr

/-- The factory `NewAPIResponse`: `apiName` is not set and keeps its zero value. -/
def NewAPIResponse (status reason errno : String) : APIResponse :=
  { apiName := "", status := status, reason := reason, errno := errno }

/-- The accessor `APIResponse.APIName`. -/
def APIResponse.APIName (o : APIResponse) : String := o.apiName

/-- The accessor `APIResponse.Status`. -/
def APIResponse.Status (o : APIResponse) : String := o.status

/-- The accessor `APIResponse.Reason`. -/
def APIResponse.Reason (o : APIResponse) : String := o.reason

/-- The accessor `APIResponse.Errno`. -/
def APIResponse.Errno (o : APIResponse) : String := o.errno

/-- A run-time panic, with its message. -/
structure Fault where
  message : String
  deriving DecidableEq, Repr

/-- The call `response.Status()` on a `*APIResponse`: the method has a value receiver, so the
pointer is dereferenced first and a nil pointer panics. -/
def statusOfPointer : Option APIResponse → Except Fault String
  | none => .error ⟨"invalid memory address or nil pointer dereference"⟩
  | some r => .ok r.Status

/-- The verb `%v` applied to a `*APIResponse`: `<nil>` for the nil pointer, otherwise the
fields of the struct in declaration order. -/
def formatResponse : Option APIResponse → String
  | none => "<nil>"
  | some r => "&\x7b" ++ r.apiName ++ " " ++ r.status ++ " " ++ r.reason ++ " " ++ r.errno ++ "\x7d"

/-- The `context.Context` argument; only the logger reads it. -/
structure Context where
  values : List (String × String)
  deriving DecidableEq, Repr

/-- The state of a call of `GetErrorAbstraction` when its body has ended: the named result
`errorOut` and, if the body ended in a panic, the panic. -/
structure Frame where
  errorOut : Error
  panicking : Option Fault
  deriving DecidableEq, Repr

/-- The body of `GetErrorAbstraction` (everything after the `defer` statement). The named
result `errorOut` starts as `nil` and is assigned before each `return`. -/
def GetErrorAbstractionBody (orbit : Nat → Nat → Bool) (_ctx : Context)
    (response : Option APIResponse) (errorIn : Error) : Frame :=
  if errorIn ≠ none then
    { errorOut := errorIn, panicking := none }
  else if response = none then
    { errorOut := Errorf "API error: nil response", panicking := none }
  else
    match statusOfPointer response with
    | .error f => { errorOut := none, panicking := some f }
    | .ok responseStatus =>
      if EqualFold orbit responseStatus "passed" then
        { errorOut := none, panicking := none }
      else
        { errorOut := Errorf ("API error: " ++ formatResponse response), panicking := none }

/-- The deferred closure of `GetErrorAbstraction`: when `recover()` yields a panic, the named
result is overwritten with `ZapiError{}` and the panic is cleared; otherwise nothing changes. -/
def recoverGuard (fr : Frame) : Frame :=
  match fr.panicking with
  | some _ => { errorOut := some (GoError.zapi ZapiError.zero), panicking := none }
  | none => fr

/-- How a call ends for its caller. -/
inductive Outcome where
  | returned (errorOut : Error)
  | crashed (f : Fault)
  deriving DecidableEq, Repr

/-- What the caller sees of a frame once the deferred closures have run. -/
def Frame.outcome (fr : Frame) : Outcome :=
  match fr.panicking with
  | some f => .crashed f
  | none => .returned fr.errorOut

/-- The function `GetErrorAbstraction` as its caller sees it: the body runs, then the deferred
closure. -/
def GetErrorAbstractionCall (orbit : Nat → Nat → Bool) (ctx : Context)
    (response : Option APIResponse) (errorIn : Error) : Outcome :=
  (recoverGuard (GetErrorAbstractionBody orbit ctx response errorIn)).outcome

/-- The value `errorOut` returned by `GetErrorAbstraction`. -/
def GetErrorAbstraction (orbit : Nat → Nat → Bool) (ctx : Context)
    (response : Option APIResponse) (errorIn : Error) : Error :=
  (recoverGuard (GetErrorAbstractionBody orbit ctx response errorIn)).errorOut

/-! ## The error taxonomy of the specification -/

/-- Modelled from the spec: the five kinds of the error taxonomy (section 7). The source
declares no such type. -/
inductive Kind where
  | Transient
  | Permanent
  | NotFound
  | Bootstrap
  | Internal
  deriving DecidableEq, Repr

/-- The dynamic type of an error value, as a type assertion or the verb `%T` sees it:
`fmt.Errorf` without `%w` and `errors.New` build a `*errors.errorString`. -/
def GoError.dynamicType : GoError → String
  | .errorString _ => "*errors.errorString"
  | .zapi _ => "api.ZapiError"
  | .bootstrap _ => "*core.BootstrapError"
  | .other ty _ => ty

/-! ## `plugin.go`: the orchestrator boundary -/

/-- The fields of `storage.VolumeConfig` that the plugin reads. -/
structure VolumeConfig where
  Name : String
  InternalName : String
  CloneSourceVolume : String
  deriving DecidableEq, Repr

/-- The struct `storage.VolumeExternal`, with the field the plugin reads. -/
structure VolumeExternal where
  Config : VolumeConfig
  deriving DecidableEq, Repr

/-- The struct `storage.SnapshotExternal`; the plugin only passes these values on. -/
structure SnapshotExternal where
  Name : String
  deriving DecidableEq, Repr

/-- The storage class configuration returned by `getStorageClass`; the plugin reads `Name`. -/
structure StorageClassConfig where
  Name : String
  deriving DecidableEq, Repr

/-- A Go `map[string]string`, as an association list. -/
abbrev Options := List (String × String)

/-- One call on the `core.Orchestrator` interface, with its arguments. `AttachVolume` is always
called with an empty options map. -/
inductive OrchCall where
  | AddVolume (config : VolumeConfig)
  | CloneVolume (config : VolumeConfig)
  | GetVolume (name : String)
  | ListVolumes
  | ReloadVolumes
  | DeleteVolume (name : String)
  | AttachVolume (name mountpoint : String)
  | DetachVolume (name mountpoint : String)
  | ListVolumeSnapshots (name : String)
  deriving DecidableEq, Repr

/-- The methods of `core.Orchestrator` that the plugin calls, over an orchestrator state `σ`.
A Go result `(value, error)` is an `Except`, a lone `error` an `Error`. -/
structure Orchestrator (σ : Type) where
  AddVolume : VolumeConfig → σ → Except GoError VolumeExternal × σ
  CloneVolume : VolumeConfig → σ → Except GoError VolumeExternal × σ
  GetVolume : String → σ → Except GoError VolumeExternal × σ
  ListVolumes : σ → Except GoError (List VolumeExternal) × σ
  ReloadVolumes : σ → Error × σ
  DeleteVolume : String → σ → Error × σ
  AttachVolume : String → String → σ → Error × σ
  DetachVolume : String → String → σ → Error × σ
  ListVolumeSnapshots : String → σ → Except GoError (List SnapshotExternal) × σ

/-- The orchestrator state together with the trace of the calls made on it so far. -/
structure World (σ : Type) where
  st : σ
  calls : List OrchCall

/-- The `err` of a Go result `(value, err)`. -/
def errOf {α : Type} : Except GoError α → Error
  | .error e => some e
  | .ok _ => none

/-- The call `p.orchestrator.AddVolume(volConfig)`, recorded in the trace. -/
def Orchestrator.callAddVolume {σ : Type} (o : Orchestrator σ) (volConfig : VolumeConfig)
    (w : World σ) : Except GoError VolumeExternal × World σ :=
  ((o.AddVolume volConfig w.st).1,
    { st := (o.AddVolume volConfig w.st).2, calls := w.calls ++ [OrchCall.AddVolume volConfig] })

/-- The call `p.orchestrator.CloneVolume(volConfig)`, recorded in the trace. -/
def Orchestrator.callCloneVolume {σ : Type} (o : Orchestrator σ) (volConfig : VolumeConfig)
    (w : World σ) : Except GoError VolumeExternal × World σ :=
  ((o.CloneVolume volConfig w.st).1,
    { st := (o.CloneVolume volConfig w.st).2,
      calls := w.calls ++ [OrchCall.CloneVolume volConfig] })

/-- The call `p.orchestrator.ReloadVolumes()`, recorded in the trace. -/
def Orchestrator.callReloadVolumes {σ : Type} (o : Orchestrator σ) (w : World σ) :
    Error × World σ :=
  ((o.ReloadVolumes w.st).1,
    { st := (o.ReloadVolumes w.st).2, calls := w.calls ++ [OrchCall.ReloadVolumes] })

/-- The call `p.orchestrator.ListVolumes()`, recorded in the trace. -/
def Orchestrator.callListVolumes {σ : Type} (o : Orchestrator σ) (w : World σ) :
    Except GoError (List VolumeExternal) × World σ :=
  ((o.ListVolumes w.st).1,
    { st := (o.ListVolumes w.st).2, calls := w.calls ++ [OrchCall.ListVolumes] })

/-- The functions `getStorageClass` and `getVolumeConfig` of package `docker`, which are
declared in another file of the package. `getStorageClass` is handed the orchestrator and may
call it; `getVolumeConfig` only converts its arguments. -/
structure Helpers (σ : Type) where
  getStorageClass : Options → Orchestrator σ → World σ →
    Except GoError StorageClassConfig × World σ
  getVolumeConfig : String → String → Options → Except GoError VolumeConfig

/-! ## `plugin.go`: the plugin -/

/-- The struct `Plugin`, without the cached Docker version and the mutex. -/
structure Plugin (σ : Type) where
  orchestrator : Orchestrator σ
  driverName : String
  driverPort : String
  volumePath : String

/-- The struct `volume.CreateRequest`. -/
structure CreateRequest where
  Name : String
  Options : Options
  deriving DecidableEq, Repr

/-- The struct `volume.Volume`; `Status` is the map from a key to the snapshot list stored
under it. -/
structure DockerVolume where
  Name : String
  Mountpoint : String
  Status : List (String × List SnapshotExternal)
  deriving DecidableEq, Repr

/-- The struct `volume.ListResponse`. -/
structure ListResponse where
  Volumes : List DockerVolume
  deriving DecidableEq, Repr

/-- The text appended by `dockerError` to a bootstrap error. -/
def journalHint : String := ": use 'journalctl -fu docker' to learn more"

/-- The method `Plugin.dockerError`: the type assertion `err.(*core.BootstrapError)` succeeds
exactly on a bootstrap error (it fails on `nil`), and then a new error is formatted from
`berr.Error()`; every other value is returned as it is. -/
def Plugin.dockerError {σ : Type} (_p : Plugin σ) (err : Error) : Error :=
  match err with
  | some (GoError.bootstrap message) => Errorf (message ++ journalHint)
  | _ => err

/-- The method `Plugin.Create`. -/
def Plugin.Create {σ : Type} (p : Plugin σ) (h : Helpers σ) (request : CreateRequest)
    (w : World σ) : Error × World σ :=
  match h.getStorageClass request.Options p.orchestrator w with
  | (.error err, w1) => (p.dockerError (some err), w1)
  | (.ok scConfig, w1) =>
    match h.getVolumeConfig request.Name scConfig.Name request.Options with
    | .error err => (p.dockerError (some err), w1)
    | .ok volConfig =>
      if volConfig.CloneSourceVolume ≠ "" then
        (p.dockerError (errOf (p.orchestrator.callCloneVolume volConfig w1).1),
          (p.orchestrator.callCloneVolume volConfig w1).2)
      else
        (p.dockerError (errOf (p.orchestrator.callAddVolume volConfig w1).1),
          (p.orchestrator.callAddVolume volConfig w1).2)

/-- The loop of `Plugin.List`: one `volume.Volume` holding the name is appended for each
orchestrator volume, in order. -/
def listLoop (tridentVols : List VolumeExternal) : List DockerVolume :=
  tridentVols.foldl
    (fun dockerVols tridentVol =>
      dockerVols ++ [{ Name := tridentVol.Config.Name, Mountpoint := "", Status := [] }])
    []

/-- The method `Plugin.List`. -/
def Plugin.List {σ : Type} (p : Plugin σ) (w : World σ) : (ListResponse × Error) × World σ :=
  match p.orchestrator.callReloadVolumes w with
  | (some err, w1) => (({ Volumes := [] }, p.dockerError (some err)), w1)
  | (none, w1) =>
    match p.orchestrator.callListVolumes w1 with
    | (.error err, w2) => (({ Volumes := [] }, p.dockerError (some err)), w2)
    | (.ok tridentVols, w2) => (({ Volumes := listLoop tridentVols }, none), w2)

/-! ## `plugin.go`: mount points -/

/-- The value `os.FileInfo`, of which the plugin only asks whether it is nil. -/
structure FileInfo where
  isDir : Bool
  deriving DecidableEq, Repr

/-- What the plugin uses of the host it runs on, over the same state `σ` that the orchestrator
acts on (the disk is part of it). These are library functions, not code of the repository:
`filepath.Join`, `os.Lstat`, `os.IsNotExist` on a non-nil error, and the method `Error()` of a
`ZapiError`, which is declared in another file of package `api`. -/
structure Host (σ : Type) where
  Join : String → String → String
  Lstat : σ → String → Option FileInfo × Error
  IsNotExist : GoError → Bool
  zapiText : ZapiError → String

/-- The function `os.IsNotExist`, which is false on nil. -/
def Host.osIsNotExist {σ : Type} (host : Host σ) : Error → Bool
  | none => false
  | some e => host.IsNotExist e

/-- The method `Error()` of an error value, which is what the verb `%v` prints. -/
def GoError.Error (zapiText : ZapiError → String) : GoError → String
  | .errorString s => s
  | .zapi z => zapiText z
  | .bootstrap message => message
  | .other _ s => s

/-- The call `p.orchestrator.GetVolume(name)`, recorded in the trace. -/
def Orchestrator.callGetVolume {σ : Type} (o : Orchestrator σ) (name : String) (w : World σ) :
    Except GoError VolumeExternal × World σ :=
  ((o.GetVolume name w.st).1,
    { st := (o.GetVolume name w.st).2, calls := w.calls ++ [OrchCall.GetVolume name] })

/-- The call `p.orchestrator.ListVolumeSnapshots(name)`, recorded in the trace. -/
def Orchestrator.callListVolumeSnapshots {σ : Type} (o : Orchestrator σ) (name : String)
    (w : World σ) : Except GoError (List SnapshotExternal) × World σ :=
  ((o.ListVolumeSnapshots name w.st).1,
    { st := (o.ListVolumeSnapshots name w.st).2,
      calls := w.calls ++ [OrchCall.ListVolumeSnapshots name] })

/-- The call `p.orchestrator.AttachVolume(name, mountpoint, options)`, recorded in the trace;
`options` is the empty map at the one place of call. -/
def Orchestrator.callAttachVolume {σ : Type} (o : Orchestrator σ) (name mountpoint : String)
    (w : World σ) : Error × World σ :=
  ((o.AttachVolume name mountpoint w.st).1,
    { st := (o.AttachVolume name mountpoint w.st).2,
      calls := w.calls ++ [OrchCall.AttachVolume name mountpoint] })

/-- The call `p.orchestrator.DetachVolume(name, mountpoint)`, recorded in the trace. -/
def Orchestrator.callDetachVolume {σ : Type} (o : Orchestrator σ) (name mountpoint : String)
    (w : World σ) : Error × World σ :=
  ((o.DetachVolume name mountpoint w.st).1,
    { st := (o.DetachVolume name mountpoint w.st).2,
      calls := w.calls ++ [OrchCall.DetachVolume name mountpoint] })

/-- The method `Plugin.mountpoint`. -/
def Plugin.mountpoint {σ : Type} (p : Plugin σ) (host : Host σ) (name : String) : String :=
  host.Join p.volumePath name

/-- The method `Plugin.getPath`, run on the disk of state `st`. -/
def Plugin.getPath {σ : Type} (p : Plugin σ) (host : Host σ) (vol : VolumeExternal) (st : σ) :
    String × Error :=
  if host.osIsNotExist (host.Lstat st (p.mountpoint host vol.Config.InternalName)).2 then
    ("", (host.Lstat st (p.mountpoint host vol.Config.InternalName)).2)
  else if (host.Lstat st (p.mountpoint host vol.Config.InternalName)).1 = none then
    ("", Errorf ("could not stat " ++ p.mountpoint host vol.Config.InternalName))
  else
    (p.mountpoint host vol.Config.InternalName, none)

/-- The struct `volume.GetRequest`. -/
structure GetRequest where
  Name : String
  deriving DecidableEq, Repr

/-- The struct `volume.GetResponse`. -/
structure GetResponse where
  Volume : Option DockerVolume
  deriving DecidableEq, Repr

/-- The struct `volume.PathRequest`. -/
structure PathRequest where
  Name : String
  deriving DecidableEq, Repr

/-- The struct `volume.PathResponse`. -/
structure PathResponse where
  Mountpoint : String
  deriving DecidableEq, Repr

/-- The struct `volume.MountRequest`. -/
structure MountRequest where
  Name : String
  ID : String
  deriving DecidableEq, Repr

/-- The struct `volume.MountResponse`. -/
structure MountResponse where
  Mountpoint : String
  deriving DecidableEq, Repr

/-- The struct `volume.UnmountRequest`. -/
structure UnmountRequest where
  Name : String
  ID : String
  deriving DecidableEq, Repr

/-- The method `Plugin.Get`. The error of `getPath` is dropped. -/
def Plugin.Get {σ : Type} (p : Plugin σ) (host : Host σ) (request : GetRequest) (w : World σ) :
    (GetResponse × Error) × World σ :=
  match p.orchestrator.callReloadVolumes w with
  | (some err, w1) => (({ Volume := none }, p.dockerError (some err)), w1)
  | (none, w1) =>
    match p.orchestrator.callGetVolume request.Name w1 with
    | (.error err, w2) => (({ Volume := none }, p.dockerError (some err)), w2)
    | (.ok tridentVol, w2) =>
      match p.orchestrator.callListVolumeSnapshots request.Name w2 with
      | (.error err, w3) => (({ Volume := none }, p.dockerError (some err)), w3)
      | (.ok snapshots, w3) =>
        (({ Volume := some
              { Name := tridentVol.Config.Name,
                Mountpoint := (p.getPath host tridentVol w3.st).1,
                Status := [("Snapshots", snapshots)] } }, none), w3)

/-- The method `Plugin.Path`. -/
def Plugin.Path {σ : Type} (p : Plugin σ) (host : Host σ) (request : PathRequest)
    (w : World σ) : (PathResponse × Error) × World σ :=
  match p.orchestrator.callGetVolume request.Name w with
  | (.error err, w1) => (({ Mountpoint := "" }, p.dockerError (some err)), w1)
  | (.ok tridentVol, w1) =>
    match p.getPath host tridentVol w1.st with
    | (_, some err) => (({ Mountpoint := "" }, p.dockerError (some err)), w1)
    | (mountpoint, none) => (({ Mountpoint := mountpoint }, none), w1)

/-- The method `Plugin.Mount`. -/
def Plugin.Mount {σ : Type} (p : Plugin σ) (host : Host σ) (request : MountRequest)
    (w : World σ) : (MountResponse × Error) × World σ :=
  match p.orchestrator.callGetVolume request.Name w with
  | (.error err, w1) => (({ Mountpoint := "" }, p.dockerError (some err)), w1)
  | (.ok tridentVol, w1) =>
    match p.orchestrator.callAttachVolume request.Name
        (p.mountpoint host tridentVol.Config.InternalName) w1 with
    | (some err, w2) =>
      (({ Mountpoint := "" },
        p.dockerError (Errorf ("error attaching volume " ++ request.Name ++ ", mountpoint "
          ++ p.mountpoint host tridentVol.Config.InternalName ++ ", error: "
          ++ err.Error host.zapiText))), w2)
    | (none, w2) =>
      (({ Mountpoint := p.mountpoint host tridentVol.Config.InternalName }, none), w2)

/-- The method `Plugin.Unmount`. -/
def Plugin.Unmount {σ : Type} (p : Plugin σ) (host : Host σ) (request : UnmountRequest)
    (w : World σ) : Error × World σ :=
  match p.orchestrator.callGetVolume request.Name w with
  | (.error err, w1) => (p.dockerError (some err), w1)
  | (.ok tridentVol, w1) =>
    match p.orchestrator.callDetachVolume request.Name
        (p.mountpoint host tridentVol.Config.InternalName) w1 with
    | (some err, w2) =>
      (p.dockerError (Errorf ("error detaching volume " ++ request.Name ++ ", mountpoint "
          ++ p.mountpoint host tridentVol.Config.InternalName ++ ", error: "
          ++ err.Error host.zapiText)), w2)
    | (none, w2) => (none, w2)

/-! ## The generated REST readers -/

/-- The interface `runtime.ClientResponse`: the status code and the body. -/
structure ClientResponse where
  Code : Int
  Body : String
  deriving DecidableEq, Repr

/-- The sentinel `io.EOF`; the comparison `err != io.EOF` is by identity with this value. -/
def ioEOF : GoError := GoError.other "io.EOF" "EOF"

/-- The method `Consume` of a `runtime.Consumer` on a target of type `T`: from the body and
the target it gives the filled target and an error. -/
abbrev ConsumeAt (T : Type) := String → T → T × Error

/-- The test `err != nil && err != io.EOF` of the generated `readResponse` methods. -/
def consumeFailed (err : Error) : Bool :=
  decide (err ≠ none) && decide (err ≠ some ioEOF)

/-- The struct `FpolicyEventCreateCreated`; `P` is `models.FpolicyEventResponse`. -/
structure FpolicyEventCreateCreated (P : Type) where
  Payload : Option P

/-- The struct `FpolicyEventCreateDefault`; `E` is `models.ErrorResponse`. -/
structure FpolicyEventCreateDefault (E : Type) where
  _statusCode : Int
  Payload : Option E

/-- The constructor `NewFpolicyEventCreateCreated`. -/
def NewFpolicyEventCreateCreated {P : Type} : FpolicyEventCreateCreated P :=
  { Payload := none }

/-- The constructor `NewFpolicyEventCreateDefault`. -/
def NewFpolicyEventCreateDefault {E : Type} (code : Int) : FpolicyEventCreateDefault E :=
  { _statusCode := code, Payload := none }

/-- The method `FpolicyEventCreateDefault.Code`. -/
def FpolicyEventCreateDefault.Code {E : Type} (o : FpolicyEventCreateDefault E) : Int :=
  o._statusCode

/-- The method `FpolicyEventCreateCreated.readResponse`: the payload is allocated with its
zero value and the body is consumed into it. -/
def FpolicyEventCreateCreated.readResponse {P : Type} [Inhabited P]
    (_o : FpolicyEventCreateCreated P) (response : ClientResponse) (consumer : ConsumeAt P) :
    FpolicyEventCreateCreated P × Error :=
  if consumeFailed (consumer response.Body default).2 then
    ({ Payload := some (consumer response.Body default).1 },
      (consumer response.Body default).2)
  else
    ({ Payload := some (consumer response.Body default).1 }, none)

/-- The method `FpolicyEventCreateDefault.readResponse`. -/
def FpolicyEventCreateDefault.readResponse {E : Type} [Inhabited E]
    (o : FpolicyEventCreateDefault E) (response : ClientResponse) (consumer : ConsumeAt E) :
    FpolicyEventCreateDefault E × Error :=
  if consumeFailed (consumer response.Body default).2 then
    ({ o with Payload := some (consumer response.Body default).1 },
      (consumer response.Body default).2)
  else
    ({ o with Payload := some (consumer response.Body default).1 }, none)

/-- The non-nil values of the `interface{}` result of `FpolicyEventCreateReader.ReadResponse`. -/
inductive FpolicyEventCreateResult (P E : Type) where
  | Created (result : FpolicyEventCreateCreated P)
  | Default (result : FpolicyEventCreateDefault E)

/-- The non-nil values of the `error` result of `FpolicyEventCreateReader.ReadResponse`: an
error of the consumer, or the default response itself. -/
inductive FpolicyEventCreateFailure (E : Type) where
  | consume (err : GoError)
  | Default (result : FpolicyEventCreateDefault E)

/-- The method `FpolicyEventCreateReader.ReadResponse`. The division `response.Code()/100`
of Go truncates towards zero. The registry `o.formats` of the reader is handed to the
`readResponse` methods, which do not use it, and is left out. -/
def FpolicyEventCreateReader.ReadResponse {P E : Type} [Inhabited P] [Inhabited E]
    (response : ClientResponse) (consumerP : ConsumeAt P) (consumerE : ConsumeAt E) :
    Option (FpolicyEventCreateResult P E) × Option (FpolicyEventCreateFailure E) :=
  if response.Code = 201 then
    match NewFpolicyEventCreateCreated.readResponse response consumerP with
    | (_, some err) => (none, some (FpolicyEventCreateFailure.consume err))
    | (result, none) => (some (FpolicyEventCreateResult.Created result), none)
  else
    match (NewFpolicyEventCreateDefault response.Code).readResponse response consumerE with
    | (_, some err) => (none, some (FpolicyEventCreateFailure.consume err))
    | (result, none) =>
      if Int.tdiv response.Code 100 = 2 then
        (some (FpolicyEventCreateResult.Default result), none)
      else
        (none, some (FpolicyEventCreateFailure.Default result))

/-- The struct `SnaplockRetentionOperationDeleteOK`, which has no field. -/
structure SnaplockRetentionOperationDeleteOK where
  deriving DecidableEq, Repr

/-- The struct `SnaplockRetentionOperationDeleteDefault`; `E` is `models.ErrorResponse`. -/
structure SnaplockRetentionOperationDeleteDefault (E : Type) where
  _statusCode : Int
  Payload : Option E

/-- The constructor `NewSnaplockRetentionOperationDeleteOK`. -/
def NewSnaplockRetentionOperationDeleteOK : SnaplockRetentionOperationDeleteOK := {}

/-- The constructor `NewSnaplockRetentionOperationDeleteDefault`. -/
def NewSnaplockRetentionOperationDeleteDefault {E : Type} (code : Int) :
    SnaplockRetentionOperationDeleteDefault E :=
  { _statusCode := code, Payload := none }

/-- The method `SnaplockRetentionOperationDeleteDefault.Code`. -/
def SnaplockRetentionOperationDeleteDefault.Code {E : Type}
    (o : SnaplockRetentionOperationDeleteDefault E) : Int :=
  o._statusCode

/-- The method `SnaplockRetentionOperationDeleteOK.readResponse`, which reads nothing. -/
def SnaplockRetentionOperationDeleteOK.readResponse (o : SnaplockRetentionOperationDeleteOK)
    (_response : ClientResponse) : SnaplockRetentionOperationDeleteOK × Error :=
  (o, none)

/-- The method `SnaplockRetentionOperationDeleteDefault.readResponse`. -/
def SnaplockRetentionOperationDeleteDefault.readResponse {E : Type} [Inhabited E]
    (o : SnaplockRetentionOperationDeleteDefault E) (response : ClientResponse)
    (consumer : ConsumeAt E) : SnaplockRetentionOperationDeleteDefault E × Error :=
  if consumeFailed (consumer response.Body default).2 then
    ({ o with Payload := some (consumer response.Body default).1 },
      (consumer response.Body default).2)
  else
    ({ o with Payload := some (consumer response.Body default).1 }, none)

/-- The non-nil values of the `interface{}` result of
`SnaplockRetentionOperationDeleteReader.ReadResponse`. -/
inductive SnaplockRetentionOperationDeleteResult (E : Type) where
  | OK (result : SnaplockRetentionOperationDeleteOK)
  | Default (result : SnaplockRetentionOperationDeleteDefault E)

/-- The non-nil values of the `error` result of
`SnaplockRetentionOperationDeleteReader.ReadResponse`. -/
inductive SnaplockRetentionOperationDeleteFailure (E : Type) where
  | consume (err : GoError)
  | Default (result : SnaplockRetentionOperationDeleteDefault E)

/-- The method `SnaplockRetentionOperationDeleteReader.ReadResponse`. -/
def SnaplockRetentionOperationDeleteReader.ReadResponse {E : Type} [Inhabited E]
    (response : ClientResponse) (consumer : ConsumeAt E) :
    Option (SnaplockRetentionOperationDeleteResult E) ×
      Option (SnaplockRetentionOperationDeleteFailure E) :=
  if response.Code = 200 then
    match NewSnaplockRetentionOperationDeleteOK.readResponse response with
    | (_, some err) => (none, some (SnaplockRetentionOperationDeleteFailure.consume err))
    | (result, none) => (some (SnaplockRetentionOperationDeleteResult.OK result), none)
  else
    match (NewSnaplockRetentionOperationDeleteDefault response.Code).readResponse response
        consumer with
    | (_, some err) => (none, some (SnaplockRetentionOperationDeleteFailure.consume err))
    | (result, none) =>
      if Int.tdiv response.Code 100 = 2 then
        (some (SnaplockRetentionOperationDeleteResult.Default result), none)
      else
        (none, some (SnaplockRetentionOperationDeleteFailure.Default result))

/-! ## The generated models: what they use of go-openapi

The packages `errors`, `validate`, `swag` and `strfmt` of go-openapi are libraries; the
functions that the generated models call are modelled here after their documented behaviour. -/

/-- The interface `strfmt.Registry`, with the two methods that `validate.FormatOf` calls. -/
structure Registry where
  ContainsName : String → Bool
  Validates : String → String → Bool

/-- The check that built an `errors.Validation`; it stands for the numeric code and the
message text of the library. -/
inductive Rule where
  | enumFail (values : List String)
  | readOnly
  | invalidTypeName
  | invalidType (format : String)
  deriving DecidableEq, Repr

/-- The struct `errors.Validation`: name and location of the property and the rejected value. -/
structure Validation where
  Name : String
  In : String
  Value : String
  rule : Rule
  deriving DecidableEq, Repr

/-- The error values that the generated models produce and tell apart: a
`*errors.Validation`, the `*errors.CompositeError` built by `errors.CompositeValidationError`,
and an error of any other type. -/
inductive ModelError where
  | validation (ve : Validation)
  | composite (errs : List ModelError)
  | other (e : GoError)

/-- The method `(*errors.Validation).ValidateName`: it sets the name, or puts the given name
and a dot in front of the name already there. -/
def Validation.ValidateName (e : Validation) (name : String) : Validation :=
  if name ≠ "" then
    if e.Name = "" then { e with Name := name }
    else { e with Name := name ++ "." ++ e.Name }
  else e

/-- The function `errors.CompositeValidationError`. -/
def errors.CompositeValidationError (errs : List ModelError) : ModelError :=
  ModelError.composite errs

/-- The function `errors.EnumFail`. -/
def errors.EnumFail (name loc value : String) (values : List String) : Validation :=
  { Name := name, In := loc, Value := value, rule := Rule.enumFail values }

/-- The function `errors.ReadOnly`. -/
def errors.ReadOnly (name loc value : String) : Validation :=
  { Name := name, In := loc, Value := value, rule := Rule.readOnly }

/-- The function `errors.InvalidTypeName`. -/
def errors.InvalidTypeName (typeName : String) : Validation :=
  { Name := "", In := "", Value := typeName, rule := Rule.invalidTypeName }

/-- The function `errors.InvalidType`. -/
def errors.InvalidType (name loc typeName value : String) : Validation :=
  { Name := name, In := loc, Value := value, rule := Rule.invalidType typeName }

/-- The function `swag.IsZero` on a string: the empty string is zero. -/
def swag.IsZeroString (data : String) : Bool := data.length == 0

/-- The function `swag.IsZero` on a pointer to a generated model, which has no `IsZero`
method of its own: only the nil pointer is zero. -/
def swag.IsZeroPointer {T : Type} (data : Option T) : Bool := data.isNone

/-- The function `validate.EnumCase` on a string and a slice of strings: the value passes when
it equals a member of the enum, and without `caseSensitive` also when it equals one under
`strings.EqualFold`; otherwise the result is `errors.EnumFail`. -/
def validate.EnumCase (orbit : Nat → Nat → Bool) (path loc data : String) (enum : List String)
    (caseSensitive : Bool) : Option Validation :=
  if enum.any (fun enumValue =>
      decide (data = enumValue) || (!caseSensitive && EqualFold orbit data enumValue)) then
    none
  else
    some (errors.EnumFail path loc data enum)

/-- The operation type that `validate` keeps in a context. -/
inductive OperationType where
  | request
  | response
  | none
  deriving DecidableEq, Repr

/-- The function `extractOperationType` of package `validate`: the value stored in the context
under the operation type key when it is `request` or `response`, and `none` otherwise. -/
def validate.extractOperationType (ctx : Context) : OperationType :=
  match ctx.values.lookup "operationTypeKey" with
  | some v =>
    if v = "request" then OperationType.request
    else if v = "response" then OperationType.response
    else OperationType.none
  | Option.none => OperationType.none

/-- The function `validate.ReadOnly` on a string: outside a request nothing is checked; in a
request the value must be the zero value of its type, the empty string. -/
def validate.ReadOnly (ctx : Context) (path loc data : String) : Option Validation :=
  if validate.extractOperationType ctx ≠ OperationType.request then none
  else if data = "" then none
  else some (errors.ReadOnly path loc data)

/-- The function `validate.FormatOf`; a nil registry stands for `strfmt.Default`. -/
def validate.FormatOf (strfmtDefault : Registry) (path loc format data : String)
    (registry : Option Registry) : Option Validation :=
  if !(registry.getD strfmtDefault).ContainsName format then
    some (errors.InvalidTypeName format)
  else if !(registry.getD strfmtDefault).Validates format data then
    some (errors.InvalidType path loc format data)
  else none

/-- A value of `strfmt.DateTime`, kept as the answers of its methods `IsZero()` and
`String()`. -/
structure DateTime where
  IsZero : Bool
  String : String
  deriving DecidableEq, Repr

/-- The function `swag.IsZero` on a `*strfmt.DateTime`: the nil pointer is zero, and a non-nil
one is asked through its `IsZero` method. -/
def swag.IsZeroDateTime : Option DateTime → Bool
  | Option.none => true
  | some t => t.IsZero

/-- The two validation methods of a model `T` that is declared in another file of package
`models`. -/
structure Foreign (T : Type) where
  Validate : Option Registry → T → Option ModelError
  ContextValidate : Context → Option Registry → T → Option ModelError

/-- What the two generated files use from outside: the Unicode fold table behind
`strings.EqualFold`, the registry `strfmt.Default`, and the models `Href`, `FcPortReference`
and `IPAddress` (the types `H`, `P` and `A`). -/
structure ModelsLib (H P A : Type) where
  orbit : Nat → Nat → Bool
  strfmtDefault : Registry
  Href : Foreign H
  FcPortReference : Foreign P
  IPAddress : Foreign A

/-- The end of every generated `Validate`: the non-nil errors are appended to `res` in order,
and the result is `errors.CompositeValidationError(res...)` if `len(res) > 0`, else nil. -/
def compositeOf (checks : List (Option ModelError)) : Option ModelError :=
  if checks.reduceOption.length > 0 then
    some (errors.CompositeValidationError checks.reduceOption)
  else none

/-- The treatment of the error of a nested `Validate`: nil stays nil, a `*errors.Validation`
gets the name of the property by `ValidateName`, any other error is returned as it is. -/
def nameNested (name : String) : Option ModelError → Option ModelError
  | Option.none => Option.none
  | some (ModelError.validation ve) => some (ModelError.validation (ve.ValidateName name))
  | some err => some err

/-! ## `fc_interface.go` -/

/-- The struct `FcInterfaceLinks`. -/
structure FcInterfaceLinks (H : Type) where
  Self : Option H

/-- The struct `FcInterfaceLocationNodeLinks`. -/
structure FcInterfaceLocationNodeLinks (H : Type) where
  Self : Option H

/-- The struct `FcInterfaceLocationNode`. -/
structure FcInterfaceLocationNode (H : Type) where
  Links : Option (FcInterfaceLocationNodeLinks H)
  Name : String
  UUID : String

/-- The struct `FcInterfaceLocation`. -/
structure FcInterfaceLocation (H P : Type) where
  Node : Option (FcInterfaceLocationNode H)
  Port : Option P

/-- The struct `FcInterfaceSvmLinksType`. -/
structure FcInterfaceSvmLinksType (H : Type) where
  Self : Option H

/-- The struct `FcInterfaceSvmType`. -/
structure FcInterfaceSvmType (H : Type) where
  Links : Option (FcInterfaceSvmLinksType H)
  Name : String
  UUID : String

/-- The struct `FcInterface`. -/
structure FcInterface (H P : Type) where
  Links : Option (FcInterfaceLinks H)
  Comment : String
  DataProtocol : String
  Enabled : Option Bool
  Location : Option (FcInterfaceLocation H P)
  Name : String
  PortAddress : String
  State : String
  Svm : Option (FcInterfaceSvmType H)
  UUID : String
  Wwnn : String
  Wwpn : String

/-- The zero value of `FcInterface`. -/
def FcInterface.zero {H P : Type} : FcInterface H P :=
  { Links := none, Comment := "", DataProtocol := "", Enabled := none, Location := none,
    Name := "", PortAddress := "", State := "", Svm := none, UUID := "", Wwnn := "",
    Wwpn := "" }

/-- The variable `fcInterfaceTypeDataProtocolPropEnum` as `init` fills it. -/
def fcInterfaceTypeDataProtocolPropEnum : List String := ["fcp", "fc_nvme"]

/-- The variable `fcInterfaceTypeStatePropEnum` as `init` fills it. -/
def fcInterfaceTypeStatePropEnum : List String := ["up", "down"]

/-- The method `FcInterfaceLinks.validateSelf`. -/
def FcInterfaceLinks.validateSelf {H P A : Type} (lib : ModelsLib H P A)
    (formats : Option Registry) (m : FcInterfaceLinks H) : Option ModelError :=
  if swag.IsZeroPointer m.Self then none
  else
    match m.Self with
    | some self => nameNested ("_links" ++ "." ++ "self") (lib.Href.Validate formats self)
    | none => none

/-- The method `FcInterfaceLinks.Validate`. -/
def FcInterfaceLinks.Validate {H P A : Type} (lib : ModelsLib H P A)
    (formats : Option Registry) (m : FcInterfaceLinks H) : Option ModelError :=
  compositeOf [m.validateSelf lib formats]

/-- The method `FcInterfaceLinks.contextValidateSelf`. -/
def FcInterfaceLinks.contextValidateSelf {H P A : Type} (lib : ModelsLib H P A)
    (ctx : Context) (formats : Option Registry) (m : FcInterfaceLinks H) : Option ModelError :=
  match m.Self with
  | some self =>
    nameNested ("_links" ++ "." ++ "self") (lib.Href.ContextValidate ctx formats self)
  | none => none

/-- The method `FcInterfaceLinks.ContextValidate`. -/
def FcInterfaceLinks.ContextValidate {H P A : Type} (lib : ModelsLib H P A)
    (ctx : Context) (formats : Option Registry) (m : FcInterfaceLinks H) : Option ModelError :=
  compositeOf [m.contextValidateSelf lib ctx formats]

/-- The method `FcInterfaceLocationNodeLinks.validateSelf`. -/
def FcInterfaceLocationNodeLinks.validateSelf {H P A : Type} (lib : ModelsLib H P A)
    (formats : Option Registry) (m : FcInterfaceLocationNodeLinks H) : Option ModelError :=
  if swag.IsZeroPointer m.Self then none
  else
    match m.Self with
    | some self =>
      nameNested ("location" ++ "." ++ "node" ++ "." ++ "_links" ++ "." ++ "self")
        (lib.Href.Validate formats self)
    | none => none

/-- The method `FcInterfaceLocationNodeLinks.Validate`. -/
def FcInterfaceLocationNodeLinks.Validate {H P A : Type} (lib : ModelsLib H P A)
    (formats : Option Registry) (m : FcInterfaceLocationNodeLinks H) : Option ModelError :=
  compositeOf [m.validateSelf lib formats]

/-- The method `FcInterfaceLocationNodeLinks.contextValidateSelf`. -/
def FcInterfaceLocationNodeLinks.contextValidateSelf {H P A : Type} (lib : ModelsLib H P A)
    (ctx : Context) (formats : Option Registry) (m : FcInterfaceLocationNodeLinks H) :
    Option ModelError :=
  match m.Self with
  | some self =>
    nameNested ("location" ++ "." ++ "node" ++ "." ++ "_links" ++ "." ++ "self")
      (lib.Href.ContextValidate ctx formats self)
  | none => none

/-- The method `FcInterfaceLocationNodeLinks.ContextValidate`. -/
def FcInterfaceLocationNodeLinks.ContextValidate {H P A : Type} (lib : ModelsLib H P A)
    (ctx : Context) (formats : Option Registry) (m : FcInterfaceLocationNodeLinks H) :
    Option ModelError :=
  compositeOf [m.contextValidateSelf lib ctx formats]

/-- The method `FcInterfaceLocationNode.validateLinks`. -/
def FcInterfaceLocationNode.validateLinks {H P A : Type} (lib : ModelsLib H P A)
    (formats : Option Registry) (m : FcInterfaceLocationNode H) : Option ModelError :=
  if swag.IsZeroPointer m.Links then none
  else
    match m.Links with
    | some links =>
      nameNested ("location" ++ "." ++ "node" ++ "." ++ "_links") (links.Validate lib formats)
    | none => none

/-- The method `FcInterfaceLocationNode.Validate`. -/
def FcInterfaceLocationNode.Validate {H P A : Type} (lib : ModelsLib H P A)
    (formats : Option Registry) (m : FcInterfaceLocationNode H) : Option ModelError :=
  compositeOf [m.validateLinks lib formats]

/-- The method `FcInterfaceLocationNode.contextValidateLinks`. -/
def FcInterfaceLocationNode.contextValidateLinks {H P A : Type} (lib : ModelsLib H P A)
    (ctx : Context) (formats : Option Registry) (m : FcInterfaceLocationNode H) :
    Option ModelError :=
  match m.Links with
  | some links =>
    nameNested ("location" ++ "." ++ "node" ++ "." ++ "_links")
      (links.ContextValidate lib ctx formats)
  | none => none

/-- The method `FcInterfaceLocationNode.ContextValidate`. -/
def FcInterfaceLocationNode.ContextValidate {H P A : Type} (lib : ModelsLib H P A)
    (ctx : Context) (formats : Option Registry) (m : FcInterfaceLocationNode H) :
    Option ModelError :=
  compositeOf [m.contextValidateLinks lib ctx formats]

/-- The method `FcInterfaceLocation.validateNode`. -/
def FcInterfaceLocation.validateNode {H P A : Type} (lib : ModelsLib H P A)
    (formats : Option Registry) (m : FcInterfaceLocation H P) : Option ModelError :=
  if swag.IsZeroPointer m.Node then none
  else
    match m.Node with
    | some node => nameNested ("location" ++ "." ++ "node") (node.Validate lib formats)
    | none => none

/-- The method `FcInterfaceLocation.validatePort`. -/
def FcInterfaceLocation.validatePort {H P A : Type} (lib : ModelsLib H P A)
    (formats : Option Registry) (m : FcInterfaceLocation H P) : Option ModelError :=
  if swag.IsZeroPointer m.Port then none
  else
    match m.Port with
    | some port =>
      nameNested ("location" ++ "." ++ "port") (lib.FcPortReference.Validate formats port)
    | none => none

/-- The method `FcInterfaceLocation.Validate`. -/
def FcInterfaceLocation.Validate {H P A : Type} (lib : ModelsLib H P A)
    (formats : Option Registry) (m : FcInterfaceLocation H P) : Option ModelError :=
  compositeOf [m.validateNode lib formats, m.validatePort lib formats]

/-- The method `FcInterfaceLocation.contextValidateNode`. -/
def FcInterfaceLocation.contextValidateNode {H P A : Type} (lib : ModelsLib H P A)
    (ctx : Context) (formats : Option Registry) (m : FcInterfaceLocation H P) :
    Option ModelError :=
  match m.Node with
  | some node =>
    nameNested ("location" ++ "." ++ "node") (node.ContextValidate lib ctx formats)
  | none => none

/-- The method `FcInterfaceLocation.contextValidatePort`. -/
def FcInterfaceLocation.contextValidatePort {H P A : Type} (lib : ModelsLib H P A)
    (ctx : Context) (formats : Option Registry) (m : FcInterfaceLocation H P) :
    Option ModelError :=
  match m.Port with
  | some port =>
    nameNested ("location" ++ "." ++ "port")
      (lib.FcPortReference.ContextValidate ctx formats port)
  | none => none

/-- The method `FcInterfaceLocation.ContextValidate`. -/
def FcInterfaceLocation.ContextValidate {H P A : Type} (lib : ModelsLib H P A)
    (ctx : Context) (formats : Option Registry) (m : FcInterfaceLocation H P) :
    Option ModelError :=
  compositeOf [m.contextValidateNode lib ctx formats, m.contextValidatePort lib ctx formats]

/-- The method `FcInterfaceSvmLinksType.validateSelf`. -/
def FcInterfaceSvmLinksType.validateSelf {H P A : Type} (lib : ModelsLib H P A)
    (formats : Option Registry) (m : FcInterfaceSvmLinksType H) : Option ModelError :=
  if swag.IsZeroPointer m.Self then none
  else
    match m.Self with
    | some self =>
      nameNested ("svm" ++ "." ++ "_links" ++ "." ++ "self") (lib.Href.Validate formats self)
    | none => none

/-- The method `FcInterfaceSvmLinksType.Validate`. -/
def FcInterfaceSvmLinksType.Validate {H P A : Type} (lib : ModelsLib H P A)
    (formats : Option Registry) (m : FcInterfaceSvmLinksType H) : Option ModelError :=
  compositeOf [m.validateSelf lib formats]

/-- The method `FcInterfaceSvmLinksType.contextValidateSelf`. -/
def FcInterfaceSvmLinksType.contextValidateSelf {H P A : Type} (lib : ModelsLib H P A)
    (ctx : Context) (formats : Option Registry) (m : FcInterfaceSvmLinksType H) :
    Option ModelError :=
  match m.Self with
  | some self =>
    nameNested ("svm" ++ "." ++ "_links" ++ "." ++ "self")
      (lib.Href.ContextValidate ctx formats self)
  | none => none

/-- The method `FcInterfaceSvmLinksType.ContextValidate`. -/
def FcInterfaceSvmLinksType.ContextValidate {H P A : Type} (lib : ModelsLib H P A)
    (ctx : Context) (formats : Option Registry) (m : FcInterfaceSvmLinksType H) :
    Option ModelError :=
  compositeOf [m.contextValidateSelf lib ctx formats]

/-- The method `FcInterfaceSvmType.validateLinks`. -/
def FcInterfaceSvmType.validateLinks {H P A : Type} (lib : ModelsLib H P A)
    (formats : Option Registry) (m : FcInterfaceSvmType H) : Option ModelError :=
  if swag.IsZeroPointer m.Links then none
  else
    match m.Links with
    | some links => nameNested ("svm" ++ "." ++ "_links") (links.Validate lib formats)
    | none => none

/-- The method `FcInterfaceSvmType.Validate`. -/
def FcInterfaceSvmType.Validate {H P A : Type} (lib : ModelsLib H P A)
    (formats : Option Registry) (m : FcInterfaceSvmType H) : Option ModelError :=
  compositeOf [m.validateLinks lib formats]

/-- The method `FcInterfaceSvmType.contextValidateLinks`. -/
def FcInterfaceSvmType.contextValidateLinks {H P A : Type} (lib : ModelsLib H P A)
    (ctx : Context) (formats : Option Registry) (m : FcInterfaceSvmType H) :
    Option ModelError :=
  match m.Links with
  | some links =>
    nameNested ("svm" ++ "." ++ "_links") (links.ContextValidate lib ctx formats)
  | none => none

/-- The method `FcInterfaceSvmType.ContextValidate`. -/
def FcInterfaceSvmType.ContextValidate {H P A : Type} (lib : ModelsLib H P A)
    (ctx : Context) (formats : Option Registry) (m : FcInterfaceSvmType H) :
    Option ModelError :=
  compositeOf [m.contextValidateLinks lib ctx formats]

/-- The method `FcInterface.validateLinks`. -/
def FcInterface.validateLinks {H P A : Type} (lib : ModelsLib H P A)
    (formats : Option Registry) (m : FcInterface H P) : Option ModelError :=
  if swag.IsZeroPointer m.Links then none
  else
    match m.Links with
    | some links => nameNested "_links" (links.Validate lib formats)
    | none => none

/-- The method `FcInterface.validateDataProtocolEnum`. -/
def FcInterface.validateDataProtocolEnum {H P A : Type} (lib : ModelsLib H P A)
    (path location value : String) : Option ModelError :=
  (validate.EnumCase lib.orbit path location value fcInterfaceTypeDataProtocolPropEnum
    true).map ModelError.validation

/-- The method `FcInterface.validateDataProtocol`. -/
def FcInterface.validateDataProtocol {H P A : Type} (lib : ModelsLib H P A)
    (_formats : Option Registry) (m : FcInterface H P) : Option ModelError :=
  if swag.IsZeroString m.DataProtocol then none
  else FcInterface.validateDataProtocolEnum lib "data_protocol" "body" m.DataProtocol

/-- The method `FcInterface.validateLocation`. -/
def FcInterface.validateLocation {H P A : Type} (lib : ModelsLib H P A)
    (formats : Option Registry) (m : FcInterface H P) : Option ModelError :=
  if swag.IsZeroPointer m.Location then none
  else
    match m.Location with
    | some location => nameNested "location" (location.Validate lib formats)
    | none => none

/-- The method `FcInterface.validateStateEnum`. -/
def FcInterface.validateStateEnum {H P A : Type} (lib : ModelsLib H P A)
    (path location value : String) : Option ModelError :=
  (validate.EnumCase lib.orbit path location value fcInterfaceTypeStatePropEnum
    true).map ModelError.validation

/-- The method `FcInterface.validateState`. -/
def FcInterface.validateState {H P A : Type} (lib : ModelsLib H P A)
    (_formats : Option Registry) (m : FcInterface H P) : Option ModelError :=
  if swag.IsZeroString m.State then none
  else FcInterface.validateStateEnum lib "state" "body" m.State

/-- The method `FcInterface.validateSvm`. -/
def FcInterface.validateSvm {H P A : Type} (lib : ModelsLib H P A)
    (formats : Option Registry) (m : FcInterface H P) : Option ModelError :=
  if swag.IsZeroPointer m.Svm then none
  else
    match m.Svm with
    | some svm => nameNested "svm" (svm.Validate lib formats)
    | none => none

/-- The method `FcInterface.Validate`. -/
def FcInterface.Validate {H P A : Type} (lib : ModelsLib H P A)
    (formats : Option Registry) (m : FcInterface H P) : Option ModelError :=
  compositeOf
    [m.validateLinks lib formats, m.validateDataProtocol lib formats,
     m.validateLocation lib formats, m.validateState lib formats, m.validateSvm lib formats]

/-- The method `FcInterface.contextValidateLinks`. -/
def FcInterface.contextValidateLinks {H P A : Type} (lib : ModelsLib H P A)
    (ctx : Context) (formats : Option Registry) (m : FcInterface H P) : Option ModelError :=
  match m.Links with
  | some links => nameNested "_links" (links.ContextValidate lib ctx formats)
  | none => none

/-- The method `FcInterface.contextValidateLocation`. -/
def FcInterface.contextValidateLocation {H P A : Type} (lib : ModelsLib H P A)
    (ctx : Context) (formats : Option Registry) (m : FcInterface H P) : Option ModelError :=
  match m.Location with
  | some location => nameNested "location" (location.ContextValidate lib ctx formats)
  | none => none

/-- The method `FcInterface.contextValidatePortAddress`. -/
def FcInterface.contextValidatePortAddress {H P : Type} (ctx : Context)
    (_formats : Option Registry) (m : FcInterface H P) : Option ModelError :=
  (validate.ReadOnly ctx "port_address" "body" m.PortAddress).map ModelError.validation

/-- The method `FcInterface.contextValidateState`. -/
def FcInterface.contextValidateState {H P : Type} (ctx : Context)
    (_formats : Option Registry) (m : FcInterface H P) : Option ModelError :=
  (validate.ReadOnly ctx "state" "body" m.State).map ModelError.validation

/-- The method `FcInterface.contextValidateSvm`. -/
def FcInterface.contextValidateSvm {H P A : Type} (lib : ModelsLib H P A)
    (ctx : Context) (formats : Option Registry) (m : FcInterface H P) : Option ModelError :=
  match m.Svm with
  | some svm => nameNested "svm" (svm.ContextValidate lib ctx formats)
  | none => none

/-- The method `FcInterface.contextValidateUUID`. -/
def FcInterface.contextValidateUUID {H P : Type} (ctx : Context)
    (_formats : Option Registry) (m : FcInterface H P) : Option ModelError :=
  (validate.ReadOnly ctx "uuid" "body" m.UUID).map ModelError.validation

/-- The method `FcInterface.contextValidateWwnn`. -/
def FcInterface.contextValidateWwnn {H P : Type} (ctx : Context)
    (_formats : Option Registry) (m : FcInterface H P) : Option ModelError :=
  (validate.ReadOnly ctx "wwnn" "body" m.Wwnn).map ModelError.validation

/-- The method `FcInterface.contextValidateWwpn`. -/
def FcInterface.contextValidateWwpn {H P : Type} (ctx : Context)
    (_formats : Option Registry) (m : FcInterface H P) : Option ModelError :=
  (validate.ReadOnly ctx "wwpn" "body" m.Wwpn).map ModelError.validation

/-- The method `FcInterface.ContextValidate`. -/
def FcInterface.ContextValidate {H P A : Type} (lib : ModelsLib H P A)
    (ctx : Context) (formats : Option Registry) (m : FcInterface H P) : Option ModelError :=
  compositeOf
    [m.contextValidateLinks lib ctx formats, m.contextValidateLocation lib ctx formats,
     m.contextValidatePortAddress ctx formats, m.contextValidateState ctx formats,
     m.contextValidateSvm lib ctx formats, m.contextValidateUUID ctx formats,
     m.contextValidateWwnn ctx formats, m.contextValidateWwpn ctx formats]

/-! ## `cluster_peer_setup_response.go` -/

/-- The struct `ClusterPeerSetupResponseInlineAuthentication`. -/
structure ClusterPeerSetupResponseInlineAuthentication where
  ExpiryTime : Option DateTime
  Passphrase : Option String
  deriving DecidableEq, Repr

/-- The struct `ClusterPeerSetupResponseInlineLinks`. -/
structure ClusterPeerSetupResponseInlineLinks (H : Type) where
  Self : Option H

/-- The struct `ClusterPeerSetupResponse`. -/
structure ClusterPeerSetupResponse (H A : Type) where
  Links : Option (ClusterPeerSetupResponseInlineLinks H)
  Authentication : Option ClusterPeerSetupResponseInlineAuthentication
  IPAddress : Option A
  Name : Option String

/-- The zero value of `ClusterPeerSetupResponse`. -/
def ClusterPeerSetupResponse.zero {H A : Type} : ClusterPeerSetupResponse H A :=
  { Links := none, Authentication := none, IPAddress := none, Name := none }

/-- The method `ClusterPeerSetupResponseInlineAuthentication.validateExpiryTime`. When
`swag.IsZero` is false the pointer is not nil, so `m.ExpiryTime.String()` is defined. -/
def ClusterPeerSetupResponseInlineAuthentication.validateExpiryTime {H P A : Type}
    (lib : ModelsLib H P A) (formats : Option Registry)
    (m : ClusterPeerSetupResponseInlineAuthentication) : Option ModelError :=
  if swag.IsZeroDateTime m.ExpiryTime then none
  else
    match m.ExpiryTime with
    | some expiryTime =>
      (validate.FormatOf lib.strfmtDefault ("authentication" ++ "." ++ "expiry_time") "body"
        "date-time" expiryTime.String formats).map ModelError.validation
    | none => none

/-- The method `ClusterPeerSetupResponseInlineAuthentication.Validate`. -/
def ClusterPeerSetupResponseInlineAuthentication.Validate {H P A : Type}
    (lib : ModelsLib H P A) (formats : Option Registry)
    (m : ClusterPeerSetupResponseInlineAuthentication) : Option ModelError :=
  compositeOf [m.validateExpiryTime lib formats]

/-- The method `ClusterPeerSetupResponseInlineLinks.validateSelf`. -/
def ClusterPeerSetupResponseInlineLinks.validateSelf {H P A : Type} (lib : ModelsLib H P A)
    (formats : Option Registry) (m : ClusterPeerSetupResponseInlineLinks H) :
    Option ModelError :=
  if swag.IsZeroPointer m.Self then none
  else
    match m.Self with
    | some self => nameNested ("_links" ++ "." ++ "self") (lib.Href.Validate formats self)
    | none => none

/-- The method `ClusterPeerSetupResponseInlineLinks.Validate`. -/
def ClusterPeerSetupResponseInlineLinks.Validate {H P A : Type} (lib : ModelsLib H P A)
    (formats : Option Registry) (m : ClusterPeerSetupResponseInlineLinks H) :
    Option ModelError :=
  compositeOf [m.validateSelf lib formats]

/-- The method `ClusterPeerSetupResponse.validateLinks`. -/
def ClusterPeerSetupResponse.validateLinks {H P A : Type} (lib : ModelsLib H P A)
    (formats : Option Registry) (m : ClusterPeerSetupResponse H A) : Option ModelError :=
  if swag.IsZeroPointer m.Links then none
  else
    match m.Links with
    | some links => nameNested "_links" (links.Validate lib formats)
    | none => none

/-- The method `ClusterPeerSetupResponse.validateAuthentication`. -/
def ClusterPeerSetupResponse.validateAuthentication {H P A : Type} (lib : ModelsLib H P A)
    (formats : Option Registry) (m : ClusterPeerSetupResponse H A) : Option ModelError :=
  if swag.IsZeroPointer m.Authentication then none
  else
    match m.Authentication with
    | some authentication => nameNested "authentication" (authentication.Validate lib formats)
    | none => none

/-- The method `ClusterPeerSetupResponse.validateIPAddress`. -/
def ClusterPeerSetupResponse.validateIPAddress {H P A : Type} (lib : ModelsLib H P A)
    (formats : Option Registry) (m : ClusterPeerSetupResponse H A) : Option ModelError :=
  if swag.IsZeroPointer m.IPAddress then none
  else
    match m.IPAddress with
    | some ipAddress => nameNested "ip_address" (lib.IPAddress.Validate formats ipAddress)
    | none => none

/-- The method `ClusterPeerSetupResponse.Validate`. -/
def ClusterPeerSetupResponse.Validate {H P A : Type} (lib : ModelsLib H P A)
    (formats : Option Registry) (m : ClusterPeerSetupResponse H A) : Option ModelError :=
  compositeOf
    [m.validateLinks lib formats, m.validateAuthentication lib formats,
     m.validateIPAddress lib formats]

/-! ## `UnmarshalBinary` of the generated models -/

/-- A Go `[]byte`, each element below 256. -/
abbrev Bytes := List Nat

/-- The function `swag.ReadJSON` on a target of type `T`: it decodes the bytes into the target,
which it updates in place, and returns an error. -/
abbrev ReadJSONAt (T : Type) := Bytes → T → T × Error

/-- The body that every generated `UnmarshalBinary` has:
`var res T; if err := swag.ReadJSON(b, &res); err != nil { return err }; *m = res; return nil`.
The result is the receiver after the call and the error. -/
def unmarshalBinary {T : Type} (zero : T) (ReadJSON : ReadJSONAt T) (m : T) (b : Bytes) :
    T × Error :=
  match (ReadJSON b zero).2 with
  | some err => (m, some err)
  | none => ((ReadJSON b zero).1, none)

/-- The method `FcInterface.UnmarshalBinary`. -/
def FcInterface.UnmarshalBinary {H P : Type} (ReadJSON : ReadJSONAt (FcInterface H P))
    (m : FcInterface H P) (b : Bytes) : FcInterface H P × Error :=
  unmarshalBinary FcInterface.zero ReadJSON m b

/-- The method `ClusterPeerSetupResponse.UnmarshalBinary`. -/
def ClusterPeerSetupResponse.UnmarshalBinary {H A : Type}
    (ReadJSON : ReadJSONAt (ClusterPeerSetupResponse H A)) (m : ClusterPeerSetupResponse H A)
    (b : Bytes) : ClusterPeerSetupResponse H A × Error :=
  unmarshalBinary ClusterPeerSetupResponse.zero ReadJSON m b

/-- The zero value of `FcInterfaceLinks`. -/
def FcInterfaceLinks.zero {H : Type} :
    FcInterfaceLinks H :=
  { Self := none }

/-- The method `FcInterfaceLinks.UnmarshalBinary`. -/
def FcInterfaceLinks.UnmarshalBinary {H : Type} (ReadJSON : ReadJSONAt (FcInterfaceLinks H))
    (m : FcInterfaceLinks H) (b : Bytes) : FcInterfaceLinks H × Error :=
  unmarshalBinary FcInterfaceLinks.zero ReadJSON m b

/-- The zero value of `FcInterfaceLocation`. -/
def FcInterfaceLocation.zero {H P : Type} :
    FcInterfaceLocation H P :=
  { Node := none, Port := none }

/-- The method `FcInterfaceLocation.UnmarshalBinary`. -/
def FcInterfaceLocation.UnmarshalBinary {H P : Type}
    (ReadJSON : ReadJSONAt (FcInterfaceLocation H P)) (m : FcInterfaceLocation H P)
    (b : Bytes) : FcInterfaceLocation H P × Error :=
  unmarshalBinary FcInterfaceLocation.zero ReadJSON m b

/-- The zero value of `FcInterfaceLocationNode`. -/
def FcInterfaceLocationNode.zero {H : Type} :
    FcInterfaceLocationNode H :=
  { Links := none, Name := "", UUID := "" }

/-- The method `FcInterfaceLocationNode.UnmarshalBinary`. -/
def FcInterfaceLocationNode.UnmarshalBinary {H : Type}
    (ReadJSON : ReadJSONAt (FcInterfaceLocationNode H)) (m : FcInterfaceLocationNode H)
    (b : Bytes) : FcInterfaceLocationNode H × Error :=
  unmarshalBinary FcInterfaceLocationNode.zero ReadJSON m b

/-- The zero value of `FcInterfaceLocationNodeLinks`. -/
def FcInterfaceLocationNodeLinks.zero {H : Type} :
    FcInterfaceLocationNodeLinks H :=
  { Self := none }

/-- The method `FcInterfaceLocationNodeLinks.UnmarshalBinary`. -/
def FcInterfaceLocationNodeLinks.UnmarshalBinary {H : Type}
    (ReadJSON : ReadJSONAt (FcInterfaceLocationNodeLinks H))
    (m : FcInterfaceLocationNodeLinks H) (b : Bytes) :
    FcInterfaceLocationNodeLinks H × Error :=
  unmarshalBinary FcInterfaceLocationNodeLinks.zero ReadJSON m b

/-- The zero value of `FcInterfaceSvmType`. -/
def FcInterfaceSvmType.zero {H : Type} :
    FcInterfaceSvmType H :=
  { Links := none, Name := "", UUID := "" }

/-- The method `FcInterfaceSvmType.UnmarshalBinary`. -/
def FcInterfaceSvmType.UnmarshalBinary {H : Type}
    (ReadJSON : ReadJSONAt (FcInterfaceSvmType H)) (m : FcInterfaceSvmType H) (b : Bytes) :
    FcInterfaceSvmType H × Error :=
  unmarshalBinary FcInterfaceSvmType.zero ReadJSON m b

/-- The zero value of `FcInterfaceSvmLinksType`. -/
def FcInterfaceSvmLinksType.zero {H : Type} :
    FcInterfaceSvmLinksType H :=
  { Self := none }

/-- The method `FcInterfaceSvmLinksType.UnmarshalBinary`. -/
def FcInterfaceSvmLinksType.UnmarshalBinary {H : Type}
    (ReadJSON : ReadJSONAt (FcInterfaceSvmLinksType H)) (m : FcInterfaceSvmLinksType H)
    (b : Bytes) : FcInterfaceSvmLinksType H × Error :=
  unmarshalBinary FcInterfaceSvmLinksType.zero ReadJSON m b

/-- The zero value of `ClusterPeerSetupResponseInlineAuthentication`. -/
def ClusterPeerSetupResponseInlineAuthentication.zero :
    ClusterPeerSetupResponseInlineAuthentication :=
  { ExpiryTime := none, Passphrase := none }

/-- The method `ClusterPeerSetupResponseInlineAuthentication.UnmarshalBinary`. -/
def ClusterPeerSetupResponseInlineAuthentication.UnmarshalBinary
    (ReadJSON : ReadJSONAt ClusterPeerSetupResponseInlineAuthentication)
    (m : ClusterPeerSetupResponseInlineAuthentication) (b : Bytes) :
    ClusterPeerSetupResponseInlineAuthentication × Error :=
  unmarshalBinary ClusterPeerSetupResponseInlineAuthentication.zero ReadJSON m b

/-- The zero value of `ClusterPeerSetupResponseInlineLinks`. -/
def ClusterPeerSetupResponseInlineLinks.zero {H : Type} :
    ClusterPeerSetupResponseInlineLinks H :=
  { Self := none }

/-- The method `ClusterPeerSetupResponseInlineLinks.UnmarshalBinary`. -/
def ClusterPeerSetupResponseInlineLinks.UnmarshalBinary {H : Type}
    (ReadJSON : ReadJSONAt (ClusterPeerSetupResponseInlineLinks H))
    (m : ClusterPeerSetupResponseInlineLinks H) (b : Bytes) :
    ClusterPeerSetupResponseInlineLinks H × Error :=
  unmarshalBinary ClusterPeerSetupResponseInlineLinks.zero ReadJSON m b

/-! ## The interface `OntapAPI` -/

/-- The declaration of one method of a Go interface: its name, its parameters as pairs of
name and type (the name is empty when the declaration gives none), and its result types. -/
structure Method where
  Name : String
  Params : List (String × String)
  Results : List String
  deriving DecidableEq, Repr

/-- The method `APIVersion` of `OntapAPI`. -/
def OntapAPI.versionMethods : List Method :=
  [{ Name := "APIVersion",
     Params := [("", "context.Context")],
     Results := ["string", "error"] }]

/-- The method `EmsAutosupportLog` of `OntapAPI`. -/
def OntapAPI.emsMethods : List Method :=
  [{ Name := "EmsAutosupportLog",
     Params := [("ctx", "context.Context"), ("driverName", "string"), ("appVersion", "string"),
       ("autoSupport", "bool"), ("category", "string"), ("computerName", "string"),
       ("eventDescription", "string"), ("eventID", "int"), ("eventSource", "string"),
       ("logLevel", "int")],
     Results := [] }]

/-- The methods of `OntapAPI` in the group of the source that runs from
`ExportPolicyCreate` to `ExportRuleList`. -/
def OntapAPI.exportMethods : List Method :=
  [{ Name := "ExportPolicyCreate",
     Params := [("ctx", "context.Context"), ("policy", "string")],
     Results := ["error"] },
   { Name := "ExportPolicyDestroy",
     Params := [("ctx", "context.Context"), ("policy", "string")],
     Results := ["error"] },
   { Name := "ExportPolicyExists",
     Params := [("ctx", "context.Context"), ("policyName", "string")],
     Results := ["bool", "error"] },
   { Name := "ExportRuleCreate",
     Params := [("ctx", "context.Context"), ("policyName", "string"),
       ("desiredPolicyRule", "string")],
     Results := ["error"] },
   { Name := "ExportRuleDestroy",
     Params := [("ctx", "context.Context"), ("policyName", "string"), ("ruleIndex", "int")],
     Results := ["error"] },
   { Name := "ExportRuleList",
     Params := [("ctx", "context.Context"), ("policyName", "string")],
     Results := ["map[string]int", "error"] }]

/-- The methods of `OntapAPI` in the group of the source that runs from
`FlexgroupCreate` to `FlexgroupSnapshotDelete`. -/
def OntapAPI.flexgroupMethods : List Method :=
  [{ Name := "FlexgroupCreate",
     Params := [("ctx", "context.Context"), ("volume", "Volume")],
     Results := ["error"] },
   { Name := "FlexgroupExists",
     Params := [("ctx", "context.Context"), ("volumeName", "string")],
     Results := ["bool", "error"] },
   { Name := "FlexgroupInfo",
     Params := [("ctx", "context.Context"), ("volumeName", "string")],
     Results := ["*Volume", "error"] },
   { Name := "FlexgroupDisableSnapshotDirectoryAccess",
     Params := [("ctx", "context.Context"), ("volumeName", "string")],
     Results := ["error"] },
   { Name := "FlexgroupSetComment",
     Params := [("ctx", "context.Context"), ("volumeNameInternal", "string"),
       ("volumeNameExternal", "string"), ("comment", "string")],
     Results := ["error"] },
   { Name := "FlexgroupModifyUnixPermissions",
     Params := [("ctx", "context.Context"), ("volumeNameInternal", "string"),
       ("volumeNameExternal", "string"), ("unixPermissions", "string")],
     Results := ["error"] },
   { Name := "FlexgroupMount",
     Params := [("ctx", "context.Context"), ("name", "string"), ("junctionPath", "string")],
     Results := ["error"] },
   { Name := "FlexgroupListByPrefix",
     Params := [("ctx", "context.Context"), ("prefix", "string")],
     Results := ["Volumes", "error"] },
   { Name := "FlexgroupDestroy",
     Params := [("ctx", "context.Context"), ("volumeName", "string"), ("force", "bool")],
     Results := ["error"] },
   { Name := "FlexgroupSetSize",
     Params := [("ctx", "context.Context"), ("name", "string"), ("newSize", "string")],
     Results := ["error"] },
   { Name := "FlexgroupSize",
     Params := [("ctx", "context.Context"), ("volumeName", "string")],
     Results := ["uint64", "error"] },
   { Name := "FlexgroupUnmount",
     Params := [("ctx", "context.Context"), ("name", "string"), ("force", "bool")],
     Results := ["error"] },
   { Name := "FlexgroupUsedSize",
     Params := [("ctx", "context.Context"), ("volumeName", "string")],
     Results := ["int", "error"] },
   { Name := "FlexgroupModifyExportPolicy",
     Params := [("ctx", "context.Context"), ("volumeName", "string"), ("policyName", "string")],
     Results := ["error"] },
   { Name := "FlexgroupSnapshotCreate",
     Params := [("ctx", "context.Context"), ("snapshotName", "string"),
       ("sourceVolume", "string")],
     Results := ["error"] },
   { Name := "FlexgroupSetQosPolicyGroupName",
     Params := [("ctx", "context.Context"), ("name", "string"), ("qos", "QosPolicyGroup")],
     Results := ["error"] },
   { Name := "FlexgroupCloneSplitStart",
     Params := [("ctx", "context.Context"), ("cloneName", "string")],
     Results := ["error"] },
   { Name := "FlexgroupSnapshotList",
     Params := [("ctx", "context.Context"), ("sourceVolume", "string")],
     Results := ["Snapshots", "error"] },
   { Name := "FlexgroupSnapshotDelete",
     Params := [("ctx", "context.Context"), ("snapshotName", "string"),
       ("sourceVolume", "string")],
     Results := ["error"] }]

/-- The methods of `OntapAPI` in the group of the source that runs from
`LunList` to `LunMapGetReportingNodes`. -/
def OntapAPI.lunMethods : List Method :=
  [{ Name := "LunList",
     Params := [("ctx", "context.Context"), ("pattern", "string")],
     Results := ["Luns", "error"] },
   { Name := "LunCreate",
     Params := [("ctx", "context.Context"), ("lun", "Lun")],
     Results := ["error"] },
   { Name := "LunDestroy",
     Params := [("ctx", "context.Context"), ("lunPath", "string")],
     Results := ["error"] },
   { Name := "LunGetComment",
     Params := [("ctx", "context.Context"), ("lunPath", "string")],
     Results := ["string", "bool", "error"] },
   { Name := "LunSetAttribute",
     Params := [("ctx", "context.Context"), ("lunPath", "string"), ("attribute", "string"),
       ("fstype", "string"), ("context", "string")],
     Results := ["error"] },
   { Name := "ParseLunComment",
     Params := [("ctx", "context.Context"), ("commentJSON", "string")],
     Results := ["map[string]string", "error"] },
   { Name := "LunSetQosPolicyGroup",
     Params := [("ctx", "context.Context"), ("lunPath", "string"),
       ("qosPolicyGroup", "QosPolicyGroup")],
     Results := ["error"] },
   { Name := "LunGetByName",
     Params := [("ctx", "context.Context"), ("name", "string")],
     Results := ["*Lun", "error"] },
   { Name := "LunRename",
     Params := [("ctx", "context.Context"), ("lunPath", "string"), ("newLunPath", "string")],
     Results := ["error"] },
   { Name := "LunMapInfo",
     Params := [("ctx", "context.Context"), ("initiatorGroupName", "string"),
       ("lunPath", "string")],
     Results := ["int", "error"] },
   { Name := "EnsureLunMapped",
     Params := [("ctx", "context.Context"), ("initiatorGroupName", "string"),
       ("lunPath", "string"), ("importNotManaged", "bool")],
     Results := ["int", "error"] },
   { Name := "LunSize",
     Params := [("ctx", "context.Context"), ("lunPath", "string")],
     Results := ["int", "error"] },
   { Name := "LunSetSize",
     Params := [("ctx", "context.Context"), ("lunPath", "string"), ("newSize", "string")],
     Results := ["uint64", "error"] },
   { Name := "LunMapGetReportingNodes",
     Params := [("ctx", "context.Context"), ("initiatorGroupName", "string"),
       ("lunPath", "string")],
     Results := ["[]string", "error"] }]

/-- The methods of `OntapAPI` in the group of the source that runs from
`IscsiInitiatorGetDefaultAuth` to `IscsiNodeGetNameRequest`. -/
def OntapAPI.iscsiMethods : List Method :=
  [{ Name := "IscsiInitiatorGetDefaultAuth",
     Params := [("ctx", "context.Context")],
     Results := ["IscsiInitiatorAuth", "error"] },
   { Name := "IscsiInitiatorSetDefaultAuth",
     Params := [("ctx", "context.Context"), ("authType", "string"), ("userName", "string"),
       ("passphrase", "string"), ("outbountUserName", "string"),
       ("outboundPassphrase", "string")],
     Results := ["error"] },
   { Name := "IscsiInterfaceGet",
     Params := [("ctx", "context.Context"), ("svm", "string")],
     Results := ["[]string", "error"] },
   { Name := "IscsiNodeGetNameRequest",
     Params := [("ctx", "context.Context")],
     Results := ["string", "error"] }]

/-- The methods of `OntapAPI` in the group of the source that runs from
`IgroupCreate` to `IgroupGetByName`. -/
def OntapAPI.igroupMethods : List Method :=
  [{ Name := "IgroupCreate",
     Params := [("ctx", "context.Context"), ("initiatorGroupName", "string"),
       ("initiatorGroupType", "string"), ("osType", "string")],
     Results := ["error"] },
   { Name := "IgroupDestroy",
     Params := [("ctx", "context.Context"), ("initiatorGroupName", "string")],
     Results := ["error"] },
   { Name := "EnsureIgroupAdded",
     Params := [("ctx", "context.Context"), ("initiatorGroupName", "string"),
       ("initiator", "string")],
     Results := ["error"] },
   { Name := "IgroupRemove",
     Params := [("ctx", "context.Context"), ("initiatorGroupName", "string"),
       ("initiator", "string"), ("force", "bool")],
     Results := ["error"] },
   { Name := "IgroupGetByName",
     Params := [("ctx", "context.Context"), ("initiatorGroupName", "string")],
     Results := ["map[string]bool", "error"] }]

/-- The methods of `OntapAPI` in the group of the source that runs from
`GetSVMAggregateAttributes` to `GetSVMAggregateSpace`. -/
def OntapAPI.aggregateMethods : List Method :=
  [{ Name := "GetSVMAggregateAttributes",
     Params := [("ctx", "context.Context")],
     Results := ["map[string]string", "error"] },
   { Name := "GetSVMAggregateNames",
     Params := [("ctx", "context.Context")],
     Results := ["[]string", "error"] },
   { Name := "GetSVMAggregateSpace",
     Params := [("ctx", "context.Context"), ("aggregate", "string")],
     Results := ["[]SVMAggregateSpace", "error"] }]

/-- The methods of `OntapAPI` in the group of the source that runs from
`GetReportedDataLifs` to `NodeListSerialNumbers`. -/
def OntapAPI.interfaceMethods : List Method :=
  [{ Name := "GetReportedDataLifs",
     Params := [("ctx", "context.Context")],
     Results := ["string", "[]string", "error"] },
   { Name := "NetInterfaceGetDataLIFs",
     Params := [("ctx", "context.Context"), ("protocol", "string")],
     Results := ["[]string", "error"] },
   { Name := "NodeListSerialNumbers",
     Params := [("ctx", "context.Context")],
     Results := ["[]string", "error"] }]

/-- The methods of `OntapAPI` in the group of the source that runs from
`SnapmirrorDeleteViaDestination` to `SnapmirrorBreak`. -/
def OntapAPI.snapmirrorMethods : List Method :=
  [{ Name := "SnapmirrorDeleteViaDestination",
     Params := [("localFlexvolName", "string"), ("localSVMName", "string")],
     Results := ["error"] },
   { Name := "IsSVMDRCapable",
     Params := [("ctx", "context.Context")],
     Results := ["bool", "error"] },
   { Name := "SnapmirrorPolicyExists",
     Params := [("ctx", "context.Context"), ("policyName", "string")],
     Results := ["bool", "error"] },
   { Name := "SnapmirrorPolicyGet",
     Params := [("ctx", "context.Context"), ("policyName", "string")],
     Results := ["*azgo.SnapmirrorPolicyInfoType", "error"] },
   { Name := "JobScheduleExists",
     Params := [("ctx", "context.Context"), ("jobName", "string")],
     Results := ["bool", "error"] },
   { Name := "GetPeeredVservers",
     Params := [("ctx", "context.Context")],
     Results := ["[]string", "error"] },
   { Name := "VolumeGetType",
     Params := [("name", "string")],
     Results := ["string", "error"] },
   { Name := "SnapmirrorGet",
     Params := [("localFlexvolName", "string"), ("localSVMName", "string"),
       ("remoteFlexvolName", "string"), ("remoteSVMName", "string")],
     Results := ["*azgo.SnapmirrorGetResponse", "error"] },
   { Name := "SnapmirrorCreate",
     Params := [("localFlexvolName", "string"), ("localSVMName", "string"),
       ("remoteFlexvolName", "string"), ("remoteSVMName", "string"), ("repPolicy", "string"),
       ("repSchedule", "string")],
     Results := ["*azgo.SnapmirrorCreateResponse", "error"] },
   { Name := "SnapmirrorInitialize",
     Params := [("localFlexvolName", "string"), ("localSVMName", "string"),
       ("remoteFlexvolName", "string"), ("remoteSVMName", "string")],
     Results := ["*azgo.SnapmirrorInitializeResponse", "error"] },
   { Name := "SnapmirrorResync",
     Params := [("localFlexvolName", "string"), ("localSVMName", "string"),
       ("remoteFlexvolName", "string"), ("remoteSVMName", "string")],
     Results := ["*azgo.SnapmirrorResyncResponse", "error"] },
   { Name := "SnapmirrorDelete",
     Params := [("localFlexvolName", "string"), ("localSVMName", "string"),
       ("remoteFlexvolName", "string"), ("remoteSVMName", "string")],
     Results := ["*azgo.SnapmirrorDestroyResponse", "error"] },
   { Name := "SnapmirrorQuiesce",
     Params := [("localFlexvolName", "string"), ("localSVMName", "string"),
       ("remoteFlexvolName", "string"), ("remoteSVMName", "string")],
     Results := ["*azgo.SnapmirrorQuiesceResponse", "error"] },
   { Name := "SnapmirrorAbort",
     Params := [("localFlexvolName", "string"), ("localSVMName", "string"),
       ("remoteFlexvolName", "string"), ("remoteSVMName", "string")],
     Results := ["*azgo.SnapmirrorAbortResponse", "error"] },
   { Name := "SnapmirrorBreak",
     Params := [("localFlexvolName", "string"), ("localSVMName", "string"),
       ("remoteFlexvolName", "string"), ("remoteSVMName", "string")],
     Results := ["*azgo.SnapmirrorBreakResponse", "error"] }]

/-- The methods of `OntapAPI` in the group of the source that runs from
`SnapshotRestoreVolume` to `SnapmirrorRelease`. -/
def OntapAPI.restoreMethods : List Method :=
  [{ Name := "SnapshotRestoreVolume",
     Params := [("ctx", "context.Context"), ("snapshotName", "string"),
       ("sourceVolume", "string")],
     Results := ["error"] },
   { Name := "SnapshotRestoreFlexgroup",
     Params := [("ctx", "context.Context"), ("snapshotName", "string"),
       ("sourceVolume", "string")],
     Results := ["error"] },
   { Name := "SnapmirrorRelease",
     Params := [("sourceFlexvolName", "string"), ("sourceSVMName", "string")],
     Results := ["error"] }]

/-- The methods of `OntapAPI` in the group of the source that runs from
`SupportsFeature` to `ValidateAPIVersion`. -/
def OntapAPI.featureMethods : List Method :=
  [{ Name := "SupportsFeature",
     Params := [("ctx", "context.Context"), ("feature", "feature")],
     Results := ["bool"] },
   { Name := "ValidateAPIVersion",
     Params := [("ctx", "context.Context")],
     Results := ["error"] }]

/-- The methods of `OntapAPI` in the group of the source that runs from
`VolumeCloneCreate` to `VolumeCloneSplitStart`. -/
def OntapAPI.cloneMethods : List Method :=
  [{ Name := "VolumeCloneCreate",
     Params := [("ctx", "context.Context"), ("cloneName", "string"), ("sourceName", "string"),
       ("snapshot", "string"), ("async", "bool")],
     Results := ["error"] },
   { Name := "VolumeCloneSplitStart",
     Params := [("ctx", "context.Context"), ("cloneName", "string")],
     Results := ["error"] }]

/-- The methods of `OntapAPI` in the group of the source that runs from
`VolumeCreate` to `VolumeSnapshotDelete`. -/
def OntapAPI.volumeMethods : List Method :=
  [{ Name := "VolumeCreate",
     Params := [("ctx", "context.Context"), ("volume", "Volume")],
     Results := ["error"] },
   { Name := "VolumeDestroy",
     Params := [("ctx", "context.Context"), ("volumeName", "string"), ("force", "bool")],
     Results := ["error"] },
   { Name := "VolumeDisableSnapshotDirectoryAccess",
     Params := [("ctx", "context.Context"), ("name", "string")],
     Results := ["error"] },
   { Name := "VolumeExists",
     Params := [("ctx", "context.Context"), ("volumeName", "string")],
     Results := ["bool", "error"] },
   { Name := "VolumeInfo",
     Params := [("ctx", "context.Context"), ("volumeName", "string")],
     Results := ["*Volume", "error"] },
   { Name := "VolumeListByPrefix",
     Params := [("ctx", "context.Context"), ("prefix", "string")],
     Results := ["Volumes", "error"] },
   { Name := "VolumeListBySnapshotParent",
     Params := [("ctx", "context.Context"), ("snapshotName", "string"),
       ("sourceVolume", "string")],
     Results := ["VolumeNameList", "error"] },
   { Name := "VolumeModifyExportPolicy",
     Params := [("ctx", "context.Context"), ("volumeName", "string"), ("policyName", "string")],
     Results := ["error"] },
   { Name := "VolumeModifyUnixPermissions",
     Params := [("ctx", "context.Context"), ("volumeNameInternal", "string"),
       ("volumeNameExternal", "string"), ("unixPermissions", "string")],
     Results := ["error"] },
   { Name := "VolumeMount",
     Params := [("ctx", "context.Context"), ("name", "string"), ("junctionPath", "string")],
     Results := ["error"] },
   { Name := "VolumeRename",
     Params := [("ctx", "context.Context"), ("originalName", "string"), ("newName", "string")],
     Results := ["error"] },
   { Name := "VolumeSetComment",
     Params := [("ctx", "context.Context"), ("volumeNameInternal", "string"),
       ("volumeNameExternal", "string"), ("comment", "string")],
     Results := ["error"] },
   { Name := "VolumeSetQosPolicyGroupName",
     Params := [("ctx", "context.Context"), ("name", "string"), ("qos", "QosPolicyGroup")],
     Results := ["error"] },
   { Name := "VolumeSetSize",
     Params := [("ctx", "context.Context"), ("name", "string"), ("newSize", "string")],
     Results := ["error"] },
   { Name := "VolumeSize",
     Params := [("ctx", "context.Context"), ("volumeName", "string")],
     Results := ["uint64", "error"] },
   { Name := "VolumeUsedSize",
     Params := [("ctx", "context.Context"), ("volumeName", "string")],
     Results := ["int", "error"] },
   { Name := "VolumeSnapshotCreate",
     Params := [("ctx", "context.Context"), ("snapshotName", "string"),
       ("sourceVolume", "string")],
     Results := ["error"] },
   { Name := "VolumeSnapshotList",
     Params := [("ctx", "context.Context"), ("sourceVolume", "string")],
     Results := ["Snapshots", "error"] },
   { Name := "VolumeSnapshotDelete",
     Params := [("ctx", "context.Context"), ("snapshotName", "string"),
       ("sourceVolume", "string")],
     Results := ["error"] }]

/-- The method `TieringPolicyValue` of `OntapAPI`. -/
def OntapAPI.tieringMethods : List Method :=
  [{ Name := "TieringPolicyValue",
     Params := [("ctx", "context.Context")],
     Results := ["string"] }]

/-- The interface `OntapAPI`, method by method in the order of the source. -/
def OntapAPI : List Method :=
  OntapAPI.versionMethods ++ OntapAPI.emsMethods ++ OntapAPI.exportMethods ++
    OntapAPI.flexgroupMethods ++ OntapAPI.lunMethods ++ OntapAPI.iscsiMethods ++
    OntapAPI.igroupMethods ++ OntapAPI.aggregateMethods ++ OntapAPI.interfaceMethods ++
    OntapAPI.snapmirrorMethods ++ OntapAPI.restoreMethods ++ OntapAPI.featureMethods ++
    OntapAPI.cloneMethods ++ OntapAPI.volumeMethods ++ OntapAPI.tieringMethods

/-- The declaration of the method of `OntapAPI` with the given name. -/
def OntapAPI.method (name : String) : Option Method :=
  List.find? (fun m => m.Name = name) OntapAPI

/-- The operations of `OntapAPI` that report or set a size. -/
def sizeOperations : List String :=
  ["VolumeSize", "VolumeUsedSize", "FlexgroupSize", "FlexgroupUsedSize", "LunSize",
   "LunSetSize", "VolumeSetSize", "FlexgroupSetSize"]

/-- The types at which a size operation carries a size: the type of its parameter `newSize`,
if it has one, and the type of each result other than `error`. -/
def Method.sizeTypes (m : Method) : List String :=
  (m.Params.filter (fun p => p.1 = "newSize")).map (fun p => p.2)
    ++ m.Results.filter (fun t => t ≠ "error")

/-- The unsigned integer types of Go. -/
def isUnsignedInteger (t : String) : Bool :=
  t ∈ ["uint", "uint8", "uint16", "uint32", "uint64", "uintptr"]

/-- Whether a method has a parameter of type `context.Context`. -/
def Method.hasContext (m : Method) : Bool :=
  m.Params.any (fun p => p.2 = "context.Context")

/-- Whether the first parameter of a method has type `context.Context`. -/
def Method.contextFirst (m : Method) : Bool :=
  m.Params.head?.map (fun p => p.2) = some "context.Context"

/-- Whether a method has an `error` or a `bool` among its results. -/
def Method.hasErrorOrBool (m : Method) : Bool :=
  m.Results.any (fun t => t = "error" || t = "bool")

/-! ## The resource managers behind `OntapAPI`, modelled from the specification

The two implementations of `OntapAPI` are in files of package `api` that are not among the
files at hand; what follows is written from sections 3, 4.3 and 4.4 of the specification. -/

/-- Modelled from the spec: the implementations of the destroy operations are missing; these
are the resource families whose destroy the contract names (a snapshot belongs to a volume or
to a flexgroup). -/
inductive Family where
  | Volume
  | Flexgroup
  | Lun
  | ExportPolicy
  | Igroup
  | VolumeSnapshot
  | FlexgroupSnapshot
  deriving DecidableEq, Repr

/-- The method of `OntapAPI` that destroys a resource of the family. -/
def Family.destroyMethod : Family → String
  | .Volume => "VolumeDestroy"
  | .Flexgroup => "FlexgroupDestroy"
  | .Lun => "LunDestroy"
  | .ExportPolicy => "ExportPolicyDestroy"
  | .Igroup => "IgroupDestroy"
  | .VolumeSnapshot => "VolumeSnapshotDelete"
  | .FlexgroupSnapshot => "FlexgroupSnapshotDelete"

/-- Every resource family. -/
def Family.all : List Family :=
  [.Volume, .Flexgroup, .Lun, .ExportPolicy, .Igroup, .VolumeSnapshot, .FlexgroupSnapshot]

/-- Modelled from the spec: the state of the array, which is missing from the files at hand:
for each family the identities of the resources that exist (for a snapshot the pair of source
and name as one key). -/
abbrev StorageArray := Family → List String

/-- Modelled from the spec: the answer of the array to a delete request, the transport
adapters being missing: the delete is acknowledged or the resource is not found. -/
inductive DeleteAnswer where
  | acknowledged
  | notFound
  deriving DecidableEq, Repr

/-- Modelled from the spec: the delete request on the array, which is missing: a resource
that exists is removed and the delete acknowledged, one that does not exist is not found. -/
def StorageArray.delete (a : StorageArray) (f : Family) (id : String) :
    DeleteAnswer × StorageArray :=
  if id ∈ a f then
    (DeleteAnswer.acknowledged,
      fun g => if g = f then (a g).filter (fun x => x ≠ id) else a g)
  else
    (DeleteAnswer.notFound, a)

/-- Modelled from the spec: the destroy operation of a resource manager, whose code is
missing. A transport error is returned as it is and the array is not reached (4.4); "a
not-found response from the array is translated to success" (4.3). -/
def Destroy (transportError : Error) (a : StorageArray) (f : Family) (id : String) :
    Error × StorageArray :=
  match transportError with
  | some err => (some err, a)
  | none =>
    match a.delete f id with
    | (DeleteAnswer.acknowledged, a1) => (none, a1)
    | (DeleteAnswer.notFound, a1) => (none, a1)

/-- Modelled from the spec: the record of a LUN (section 3), the struct `Lun` of package `api`
being declared in a missing file: path, size, comment, OS type and QoS policy. -/
structure Lun where
  Path : String
  Size : Nat
  Comment : String
  OsType : String
  QosPolicy : String
  deriving DecidableEq, Repr

/-- Modelled from the spec: the "necessary transport-level escaping" of the LUN comment
(4.3), the transport adapters being missing. -/
structure Escaping where
  escape : String → String
  unescape : String → String

/-- The double quote character. -/
def doubleQuote : Char := Char.ofNat 34

/-- The backslash character. -/
def backslash : Char := Char.ofNat 92

/-- Modelled from the spec: the transport adapters are missing; this is the escaping that a
markup transport needs for one character: the ampersand, the two angle brackets and the double
quote are written as entities, any other character as itself. -/
def entityEscapeChar (c : Char) : List Char :=
  if c = '&' then ['&', 'a', 'm', 'p', ';']
  else if c = '<' then ['&', 'l', 't', ';']
  else if c = '>' then ['&', 'g', 't', ';']
  else if c = doubleQuote then ['&', 'q', 'u', 'o', 't', ';']
  else [c]

/-- Modelled from the spec: the entity escaping of a text, the transport adapters being
missing. -/
def entityEscapeChars : List Char → List Char
  | [] => []
  | c :: rest => entityEscapeChar c ++ entityEscapeChars rest

/-- Modelled from the spec: the entity that starts right after an ampersand, if there is one,
with the number of characters it takes; part of the missing transport adapter. -/
def entityAt (rest : List Char) : Option (Char × Nat) :=
  if ['a', 'm', 'p', ';'].isPrefixOf rest then some ('&', 4)
  else if ['l', 't', ';'].isPrefixOf rest then some ('<', 3)
  else if ['g', 't', ';'].isPrefixOf rest then some ('>', 3)
  else if ['q', 'u', 'o', 't', ';'].isPrefixOf rest then some (doubleQuote, 5)
  else none

/-- Modelled from the spec: the reading of an entity-escaped text, the transport adapters
being missing: an entity gives its character, any other character stays. -/
def entityUnescapeChars (l : List Char) : List Char :=
  match l with
  | [] => []
  | c :: rest =>
    if c = '&' then
      match entityAt rest with
      | some (d, n) => d :: entityUnescapeChars (rest.drop n)
      | none => c :: entityUnescapeChars rest
    else c :: entityUnescapeChars rest
termination_by l.length
decreasing_by
  all_goals simp only [List.length_cons, List.length_drop]
  all_goals omega

/-- Modelled from the spec: the escaping of a markup transport, the transport adapters being
missing. -/
def entityEscaping : Escaping :=
  { escape := fun c => String.mk (entityEscapeChars c.data),
    unescape := fun c => String.mk (entityUnescapeChars c.data) }

/-- Modelled from the spec: the escaping that a quoted-string transport needs, the transport
adapters being missing: a backslash is put before a double quote and before a backslash. -/
def backslashEscapeChars : List Char → List Char
  | [] => []
  | c :: rest =>
    if c = doubleQuote ∨ c = backslash then backslash :: c :: backslashEscapeChars rest
    else c :: backslashEscapeChars rest

/-- Modelled from the spec: the reading of a backslash-escaped text, the transport adapters
being missing: a backslash is dropped and the character after it is taken as it is. -/
def backslashUnescapeChars : List Char → List Char
  | [] => []
  | [c] => [c]
  | c :: d :: rest =>
    if c = backslash then d :: backslashUnescapeChars rest
    else c :: backslashUnescapeChars (d :: rest)

/-- Modelled from the spec: the escaping of a quoted-string transport, the transport adapters
being missing. -/
def backslashEscaping : Escaping :=
  { escape := fun c => String.mk (backslashEscapeChars c.data),
    unescape := fun c => String.mk (backslashUnescapeChars c.data) }

/-- Modelled from the spec: the LUN as the array stores it, with the comment escaped for
the transport; the adapter that does so is missing. -/
def Escaping.onWire (esc : Escaping) (lun : Lun) : Lun :=
  { lun with Comment := esc.escape lun.Comment }

/-- Modelled from the spec: `LunCreate`, whose code is missing, on the LUNs that the array
holds. A transport error is returned as it is. Create is idempotent under "already exists":
a LUN that exists with the same attributes is a success, one with other attributes is a
conflict (4.3); a new LUN is stored with its comment. -/
def LunCreate (esc : Escaping) (transportError : Error) (lun : Lun) (luns : List Lun) :
    Error × List Lun :=
  match transportError with
  | some err => (some err, luns)
  | none =>
    match luns.find? (fun l => l.Path = lun.Path) with
    | none => (none, luns ++ [esc.onWire lun])
    | some existing =>
      if existing = esc.onWire lun then (none, luns)
      else (Errorf ("LUN " ++ lun.Path ++ " exists with other attributes"), luns)

/-- Modelled from the spec: `LunGetComment`, whose code is missing: the comment of the LUN at
the path, unescaped, or an error when the transport fails or no such LUN exists. The boolean
that the declared method also returns is not described by the specification and is left
out. -/
def LunGetComment (esc : Escaping) (transportError : Error) (lunPath : String)
    (luns : List Lun) : String × Error :=
  match transportError with
  | some err => ("", some err)
  | none =>
    match luns.find? (fun l => l.Path = lunPath) with
    | none => ("", Errorf ("LUN " ++ lunPath ++ " not found"))
    | some l => (esc.unescape l.Comment, none)

/-! ## Sample inputs -/

/-- A context without values. -/
def emptyContext : Context := { values := [] }

/-- A fold table in which no rune outside ASCII has a case partner. -/
def noOrbit : Nat → Nat → Bool := fun _ _ => false

/-- An orchestrator over a call counter: every call succeeds and counts itself; it knows two
volumes. -/
def countingOrchestrator : Orchestrator Nat where
  AddVolume := fun c n => (.ok { Config := c }, n + 1)
  CloneVolume := fun c n => (.ok { Config := c }, n + 1)
  GetVolume := fun name n =>
    (.ok { Config := { Name := name, InternalName := "trident_" ++ name,
                       CloneSourceVolume := "" } }, n + 1)
  ListVolumes := fun n =>
    (.ok [{ Config := { Name := "a", InternalName := "trident_a", CloneSourceVolume := "" } },
          { Config := { Name := "b", InternalName := "trident_b", CloneSourceVolume := "" } }],
      n + 1)
  ReloadVolumes := fun n => (none, n + 1)
  DeleteVolume := fun _ n => (none, n + 1)
  AttachVolume := fun _ _ n => (none, n + 1)
  DetachVolume := fun _ _ n => (none, n + 1)
  ListVolumeSnapshots := fun _ n => (.ok [], n + 1)

/-- An orchestrator like `countingOrchestrator` whose `ReloadVolumes` fails. -/
def staleOrchestrator : Orchestrator Nat :=
  { countingOrchestrator with
    ReloadVolumes := fun n => (some (GoError.errorString "reload failed"), n + 1) }

/-- A plugin on a given orchestrator. -/
def pluginOn (o : Orchestrator Nat) : Plugin Nat :=
  { orchestrator := o, driverName := "netapp", driverPort := "",
    volumePath := "/var/lib/docker-volumes/netapp" }

/-- Helpers that find the storage class `basic` without calling the orchestrator and copy the
option `from` into `CloneSourceVolume`. -/
def plainHelpers : Helpers Nat where
  getStorageClass := fun _ _ w => (.ok { Name := "basic" }, w)
  getVolumeConfig := fun name _ opts =>
    .ok { Name := name, InternalName := "trident_" ++ name,
          CloneSourceVolume := (opts.lookup "from").getD "" }

/-- Helpers whose `getStorageClass` fails. -/
def failingHelpers : Helpers Nat where
  getStorageClass := fun _ _ w => (.error (GoError.errorString "no storage class"), w)
  getVolumeConfig := fun name _ _ =>
    .ok { Name := name, InternalName := name, CloneSourceVolume := "" }

/-- An orchestrator like `countingOrchestrator` that does not know any volume. -/
def emptyOrchestrator : Orchestrator Nat :=
  { countingOrchestrator with
    GetVolume := fun _ n => (.error (GoError.errorString "volume not found"), n + 1) }

/-- The error of `os.Lstat` for a missing path. -/
def missingPathError : GoError :=
  GoError.other "*fs.PathError" "lstat: no such file or directory"

/-- A host on whose disk exactly the mount point of volume `a` exists, whatever the state. -/
def diskHost : Host Nat where
  Join := fun dir name => dir ++ "/" ++ name
  Lstat := fun _ path =>
    if path = "/var/lib/docker-volumes/netapp/trident_a" then (some { isDir := true }, none)
    else (none, some missingPathError)
  IsNotExist := fun e => decide (e = missingPathError)
  zapiText := fun z => z.reason

/-- A consumer that stores the body as the payload and never fails. -/
def echoConsumer : ConsumeAt String := fun body _ => (body, none)

/-- A response with status 204 and an empty body. -/
def noContentResponse : ClientResponse := { Code := 204, Body := "" }

/-- A registry that knows every format and accepts every value. -/
def openRegistry : Registry := { ContainsName := fun _ => true, Validates := fun _ _ => true }

/-- A foreign model without content that always validates. -/
def unitModel : Foreign Unit :=
  { Validate := fun _ _ => none, ContextValidate := fun _ _ _ => none }

/-- A library in which `Href`, `FcPortReference` and `IPAddress` always validate. -/
def plainLib : ModelsLib Unit Unit Unit :=
  { orbit := noOrbit, strfmtDefault := openRegistry, Href := unitModel,
    FcPortReference := unitModel, IPAddress := unitModel }

/-- A context marked as a request by `validate.WithOperationRequest`. -/
def requestContext : Context := { values := [("operationTypeKey", "request")] }

/-- An FC interface for FCP that is up. -/
def fcpInterface : FcInterface Unit Unit :=
  { (FcInterface.zero : FcInterface Unit Unit) with
    Name := "lif1", DataProtocol := "fcp", State := "up" }

/-- A decoder of FC interfaces: the empty input is rejected, any other input sets the name
and leaves every other field of the target as it is. -/
def nameDecoder : ReadJSONAt (FcInterface Unit Unit) := fun b target =>
  if b = [] then (target, some (GoError.errorString "unexpected end of JSON input"))
  else ({ target with Name := "decoded" }, none)

/-- An array that holds the volume `vol1` and nothing else. -/
def oneVolumeArray : StorageArray := fun f =>
  match f with
  | .Volume => ["vol1"]
  | _ => []

/-- An escaping that leaves the comment as it is. -/
def noEscaping : Escaping := { escape := fun c => c, unescape := fun c => c }

/-- A LUN whose comment is a JSON attribute bag. -/
def sampleLun : Lun :=
  { Path := "/vol/vol1/lun0", Size := 1073741824,
    Comment := "\x7b\"lunAttributes\":\x7b\"fstype\":\"ext4\"\x7d\x7d",
    OsType := "linux", QosPolicy := "" }

/-- A transport error of the kind the specification calls Transient: connection refused,
reported as a text error. -/
def connectionRefused : GoError :=
  GoError.errorString "dial tcp 10.0.0.1:443: connect: connection refused"

/-- A transport error of the kind the specification calls Permanent: an authentication
failure, reported as a text error. -/
def unauthorized : GoError := GoError.errorString "401 Unauthorized"

/-! ## Lemmas -/

theorem recoverGuard_outcome (fr : Frame) :
    (recoverGuard fr).outcome = Outcome.returned (recoverGuard fr).errorOut := by
  unfold recoverGuard Frame.outcome
  cases h : fr.panicking <;> simp [h]

theorem body_never_panics (orbit : Nat → Nat → Bool) (ctx : Context)
    (response : Option APIResponse) (errorIn : Error) :
    (GetErrorAbstractionBody orbit ctx response errorIn).panicking = none := by
  unfold GetErrorAbstractionBody
  cases errorIn with
  | some e => simp
  | none =>
    cases response with
    | none => simp
    | some r =>
      simp only [statusOfPointer]
      by_cases hp : EqualFold orbit r.Status "passed" = true <;> simp [hp]

theorem GetErrorAbstraction_eq (orbit : Nat → Nat → Bool) (ctx : Context)
    (response : Option APIResponse) (errorIn : Error) :
    GetErrorAbstraction orbit ctx response errorIn =
      match errorIn, response with
      | some e, _ => some e
      | none, none => Errorf "API error: nil response"
      | none, some r =>
        if EqualFold orbit r.Status "passed" then none
        else Errorf ("API error: " ++ formatResponse (some r)) := by
  unfold GetErrorAbstraction GetErrorAbstractionBody recoverGuard
  cases errorIn with
  | some e => simp
  | none =>
    cases response with
    | none => simp
    | some r =>
      simp only [statusOfPointer]
      by_cases hp : EqualFold orbit r.Status "passed" = true <;> simp [hp]

theorem dockerError_isSome {σ : Type} (p : Plugin σ) (e : GoError) :
    (p.dockerError (some e)).isSome = true := by
  cases e <;> rfl

theorem foldl_append_names (vols : List VolumeExternal) (acc : List DockerVolume) :
    vols.foldl
        (fun dockerVols tridentVol =>
          dockerVols ++ [{ Name := tridentVol.Config.Name, Mountpoint := "", Status := [] }])
        acc
      = acc ++ vols.map (fun v => { Name := v.Config.Name, Mountpoint := "", Status := [] }) := by
  induction vols generalizing acc with
  | nil => simp
  | cons v vs ih => simp [List.foldl_cons, ih]

theorem listLoop_eq_map (vols : List VolumeExternal) :
    listLoop vols =
      vols.map (fun v => { Name := v.Config.Name, Mountpoint := "", Status := [] }) := by
  unfold listLoop
  rw [foldl_append_names]
  simp

theorem tdiv_hundred_eq_two (c : Int) : Int.tdiv c 100 = 2 ↔ 200 ≤ c ∧ c ≤ 299 := by
  rcases Int.lt_or_le c 0 with h | h
  · have hneg : Int.tdiv c 100 ≤ 0 := by
      obtain ⟨n, rfl⟩ := Int.exists_eq_neg_ofNat (le_of_lt h)
      rw [Int.neg_tdiv]
      have := Int.tdiv_nonneg (Int.ofNat_nonneg n) (by decide : (0 : Int) ≤ 100)
      omega
    omega
  · rw [Int.tdiv_eq_ediv h (by decide)]
    omega

theorem fpolicy_created_read {P : Type} [Inhabited P] (response : ClientResponse)
    (consumer : ConsumeAt P) (h : consumeFailed (consumer response.Body default).2 = false) :
    (NewFpolicyEventCreateCreated : FpolicyEventCreateCreated P).readResponse response consumer
      = ({ Payload := some (consumer response.Body default).1 }, none) := by
  simp [FpolicyEventCreateCreated.readResponse, h]

theorem fpolicy_default_read {E : Type} [Inhabited E] (response : ClientResponse)
    (consumer : ConsumeAt E) (h : consumeFailed (consumer response.Body default).2 = false) :
    (NewFpolicyEventCreateDefault response.Code : FpolicyEventCreateDefault E).readResponse
        response consumer
      = ({ _statusCode := response.Code,
           Payload := some (consumer response.Body default).1 }, none) := by
  simp [FpolicyEventCreateDefault.readResponse, NewFpolicyEventCreateDefault, h]

theorem snaplock_default_read {E : Type} [Inhabited E] (response : ClientResponse)
    (consumer : ConsumeAt E) (h : consumeFailed (consumer response.Body default).2 = false) :
    (NewSnaplockRetentionOperationDeleteDefault response.Code :
        SnaplockRetentionOperationDeleteDefault E).readResponse response consumer
      = ({ _statusCode := response.Code,
           Payload := some (consumer response.Body default).1 }, none) := by
  simp [SnaplockRetentionOperationDeleteDefault.readResponse,
    NewSnaplockRetentionOperationDeleteDefault, h]

theorem compositeOf_eq_none (checks : List (Option ModelError)) :
    compositeOf checks = none ↔ ∀ c ∈ checks, c = none := by
  unfold compositeOf
  induction checks with
  | nil => simp
  | cons c cs ih =>
    cases c with
    | none =>
      simp only [List.reduceOption_cons_of_none, List.mem_cons, forall_eq_or_imp, true_and]
      exact ih
    | some e => simp [List.reduceOption_cons_of_some]

theorem nameNested_eq_none (name : String) (e : Option ModelError) :
    nameNested name e = none ↔ e = none := by
  cases e with
  | none => simp [nameNested]
  | some err => cases err <;> simp [nameNested]

theorem IsZeroString_iff (s : String) : swag.IsZeroString s = true ↔ s = "" := by
  unfold swag.IsZeroString
  constructor
  · intro h
    have hl : s.length = 0 := by simpa using h
    have : s.data = [] := List.length_eq_zero.mp hl
    exact String.ext this
  · intro h
    subst h
    rfl

theorem EnumCase_sensitive_eq_none (orbit : Nat → Nat → Bool) (path loc data : String)
    (enum : List String) :
    validate.EnumCase orbit path loc data enum true = none ↔ data ∈ enum := by
  unfold validate.EnumCase
  by_cases h : data ∈ enum
  · have : enum.any (fun enumValue =>
        decide (data = enumValue) || (!true && EqualFold orbit data enumValue)) = true := by
      simp [List.any_eq_true, h]
    simp [this, h]
  · have : enum.any (fun enumValue =>
        decide (data = enumValue) || (!true && EqualFold orbit data enumValue)) = false := by
      simp [List.any_eq_false, h]
      intro x hx hdx
      exact h (hdx ▸ hx)
    simp [this, h]

theorem ReadOnly_eq_none (ctx : Context) (path loc data : String) :
    validate.ReadOnly ctx path loc data = none
      ↔ (validate.extractOperationType ctx ≠ OperationType.request ∨ data = "") := by
  unfold validate.ReadOnly
  by_cases h1 : validate.extractOperationType ctx = OperationType.request
  · by_cases h2 : data = "" <;> simp [h1, h2]
  · simp [h1]

theorem map_validation_eq_none (v : Option Validation) :
    v.map ModelError.validation = none ↔ v = none := by
  cases v <;> simp

theorem FcInterface_ContextValidate_eq_none {H P A : Type} (lib : ModelsLib H P A)
    (ctx : Context) (formats : Option Registry) (m : FcInterface H P) :
    m.ContextValidate lib ctx formats = none ↔
      m.contextValidateLinks lib ctx formats = none ∧
      m.contextValidateLocation lib ctx formats = none ∧
      (validate.extractOperationType ctx ≠ OperationType.request ∨ m.PortAddress = "") ∧
      (validate.extractOperationType ctx ≠ OperationType.request ∨ m.State = "") ∧
      m.contextValidateSvm lib ctx formats = none ∧
      (validate.extractOperationType ctx ≠ OperationType.request ∨ m.UUID = "") ∧
      (validate.extractOperationType ctx ≠ OperationType.request ∨ m.Wwnn = "") ∧
      (validate.extractOperationType ctx ≠ OperationType.request ∨ m.Wwpn = "") := by
  unfold FcInterface.ContextValidate
  rw [compositeOf_eq_none]
  simp only [List.mem_cons, List.mem_singleton, forall_eq_or_imp, forall_eq, List.not_mem_nil,
    false_imp_iff, implies_true, and_true]
  simp only [FcInterface.contextValidatePortAddress, FcInterface.contextValidateState,
    FcInterface.contextValidateUUID, FcInterface.contextValidateWwnn,
    FcInterface.contextValidateWwpn, map_validation_eq_none, ReadOnly_eq_none]

theorem ClusterPeerSetupResponse_Validate_eq_none {H P A : Type} (lib : ModelsLib H P A)
    (formats : Option Registry) (m : ClusterPeerSetupResponse H A) :
    m.Validate lib formats = none ↔
      (∀ links, m.Links = some links → links.Validate lib formats = none) ∧
      (∀ authentication, m.Authentication = some authentication →
        authentication.Validate lib formats = none) ∧
      (∀ ipAddress, m.IPAddress = some ipAddress →
        lib.IPAddress.Validate formats ipAddress = none) := by
  unfold ClusterPeerSetupResponse.Validate
  rw [compositeOf_eq_none]
  simp only [List.mem_cons, List.mem_singleton, forall_eq_or_imp, forall_eq, List.not_mem_nil,
    false_imp_iff, implies_true, and_true]
  have h1 : m.validateLinks lib formats = none ↔
      ∀ links, m.Links = some links → links.Validate lib formats = none := by
    unfold ClusterPeerSetupResponse.validateLinks
    cases h : m.Links <;> simp [swag.IsZeroPointer, nameNested_eq_none]
  have h2 : m.validateAuthentication lib formats = none ↔
      ∀ authentication, m.Authentication = some authentication →
        authentication.Validate lib formats = none := by
    unfold ClusterPeerSetupResponse.validateAuthentication
    cases h : m.Authentication <;> simp [swag.IsZeroPointer, nameNested_eq_none]
  have h3 : m.validateIPAddress lib formats = none ↔
      ∀ ipAddress, m.IPAddress = some ipAddress →
        lib.IPAddress.Validate formats ipAddress = none := by
    unfold ClusterPeerSetupResponse.validateIPAddress
    cases h : m.IPAddress <;> simp [swag.IsZeroPointer, nameNested_eq_none]
  rw [h1, h2, h3]

theorem Destroy_absent (a : StorageArray) (f : Family) (id : String) (habsent : id ∉ a f) :
    Destroy none a f id = (none, a) := by
  simp [Destroy, StorageArray.delete, habsent]

theorem Destroy_makes_absent (a : StorageArray) (f : Family) (id : String) :
    id ∉ (Destroy none a f id).2 f := by
  by_cases h : id ∈ a f
  · simp [Destroy, StorageArray.delete, h]
  · simp [Destroy, StorageArray.delete, h]

theorem escape_roundtrip_onWire (esc : Escaping) (hesc : ∀ c, esc.unescape (esc.escape c) = c)
    (lun : Lun) : esc.unescape (esc.onWire lun).Comment = lun.Comment := by
  simp [Escaping.onWire, hesc]

theorem unmarshalBinary_atomic {T : Type} (zero : T) (read : ReadJSONAt T) (m : T)
    (b : Bytes) :
    (∀ err, (read b zero).2 = some err → unmarshalBinary zero read m b = (m, some err)) ∧
      ((read b zero).2 = none → unmarshalBinary zero read m b = ((read b zero).1, none)) ∧
      (∀ (F : Type) (field : T → F), (read b zero).2 = none →
        (∀ target, field (read b target).1 = field target) →
        field (unmarshalBinary zero read m b).1 = field zero) := by
  refine ⟨?_, ?_, ?_⟩
  · intro err h
    simp [unmarshalBinary, h]
  · intro h
    simp [unmarshalBinary, h]
  · intro F field h hkeep
    simp [unmarshalBinary, h, hkeep]

theorem entity_roundtrip (l : List Char) :
    entityUnescapeChars (entityEscapeChars l) = l := by
  have q1 : doubleQuote ≠ '&' := by decide
  have q2 : doubleQuote ≠ '<' := by decide
  have q3 : doubleQuote ≠ '>' := by decide
  induction l with
  | nil => simp [entityEscapeChars, entityUnescapeChars]
  | cons c rest ih =>
    simp only [entityEscapeChars, entityEscapeChar]
    by_cases h1 : c = '&'
    · subst h1
      simp only [↓reduceIte, List.cons_append, List.nil_append]
      rw [entityUnescapeChars]
      simp [entityAt, ih]
    · by_cases h2 : c = '<'
      · subst h2
        simp only [↓reduceIte, Char.reduceEq, List.cons_append, List.nil_append]
        rw [entityUnescapeChars]
        simp [entityAt, ih]
      · by_cases h3 : c = '>'
        · subst h3
          simp only [↓reduceIte, Char.reduceEq, List.cons_append, List.nil_append]
          rw [entityUnescapeChars]
          simp [entityAt, ih]
        · by_cases h4 : c = doubleQuote
          · subst h4
            simp only [q1, q2, q3, ↓reduceIte, List.cons_append, List.nil_append]
            rw [entityUnescapeChars]
            simp [entityAt, ih]
          · simp only [h1, h2, h3, h4, if_false, List.singleton_append]
            rw [entityUnescapeChars]
            simp [h1, ih]

theorem backslashUnescape_cons (c : Char) (l : List Char) (h : c ≠ backslash) :
    backslashUnescapeChars (c :: l) = c :: backslashUnescapeChars l := by
  cases l with
  | nil => rfl
  | cons d rest => simp [backslashUnescapeChars, h]

theorem backslash_roundtrip (l : List Char) :
    backslashUnescapeChars (backslashEscapeChars l) = l := by
  induction l with
  | nil => rfl
  | cons c rest ih =>
    simp only [backslashEscapeChars]
    by_cases h : c = doubleQuote ∨ c = backslash
    · simp [h, backslashUnescapeChars, ih]
    · have hb : c ≠ backslash := fun hc => h (Or.inr hc)
      simp only [h, if_false]
      rw [backslashUnescape_cons c _ hb, ih]

theorem entityEscaping_lossless (c : String) :
    entityEscaping.unescape (entityEscaping.escape c) = c := by
  simp [entityEscaping, entity_roundtrip]

theorem backslashEscaping_lossless (c : String) :
    backslashEscaping.unescape (backslashEscaping.escape c) = c := by
  simp [backslashEscaping, backslash_roundtrip]

theorem LunComment_roundtrip_of_lossless (esc : Escaping)
    (hesc : ∀ c, esc.unescape (esc.escape c) = c) (lun : Lun) (luns : List Lun)
    (hcreated : (LunCreate esc none lun luns).1 = none) :
    LunGetComment esc none lun.Path (LunCreate esc none lun luns).2 = (lun.Comment, none) := by
  unfold LunCreate at hcreated ⊢
  cases hfind : luns.find? (fun l => decide (l.Path = lun.Path)) with
  | none =>
    have hp : (esc.onWire lun).Path = lun.Path := rfl
    simp only [hfind, LunGetComment, List.find?_append, Option.none_or, List.find?_cons, hp,
      decide_True, escape_roundtrip_onWire esc hesc]
  | some existing =>
    simp only [hfind] at hcreated ⊢
    by_cases heq : existing = esc.onWire lun
    · simp only [heq, if_true, LunGetComment]
      rw [heq] at hfind
      simp only [hfind, escape_roundtrip_onWire esc hesc]
    · simp [heq, Errorf] at hcreated

/-! ## `GetErrorAbstraction` -/

/-- C1: for every response, nil or not, and every non-nil transport error `errorIn`,
`GetErrorAbstraction` returns normally and returns exactly `errorIn`. -/
theorem GetErrorAbstraction_transport_error_verbatim (orbit : Nat → Nat → Bool) (ctx : Context)
    (response : Option APIResponse) (e : GoError) :
    GetErrorAbstraction orbit ctx response (some e) = some e ∧
      GetErrorAbstractionCall orbit ctx response (some e) = Outcome.returned (some e) := by
  constructor
  · rw [GetErrorAbstraction_eq]
  · unfold GetErrorAbstractionCall
    rw [recoverGuard_outcome]
    have h := GetErrorAbstraction_eq orbit ctx response (some e)
    unfold GetErrorAbstraction at h
    rw [h]

/-- C2: with a nil transport error and a nil response, `GetErrorAbstraction` returns the
non-nil error whose text is "API error: nil response". -/
theorem GetErrorAbstraction_nil_response (orbit : Nat → Nat → Bool) (ctx : Context) :
    GetErrorAbstraction orbit ctx none none
        = some (GoError.errorString "API error: nil response") ∧
      (GetErrorAbstraction orbit ctx none none).isSome = true := by
  rw [GetErrorAbstraction_eq]
  simp [Errorf]

/-- C3: with a nil transport error and a non-nil response `r`, `GetErrorAbstraction` returns
nil if and only if `strings.EqualFold(r.Status(), "passed")`; the answer does not depend on
the reason and errno, every other status gives the error "API error: " followed by the
response, and the empty status is such a status. -/
theorem GetErrorAbstraction_nil_iff_passed (orbit : Nat → Nat → Bool) (ctx : Context)
    (r : APIResponse) :
    (GetErrorAbstraction orbit ctx (some r) none = none
        ↔ EqualFold orbit r.Status "passed" = true) ∧
      (GetErrorAbstraction orbit ctx (some r) none =
        if EqualFold orbit r.Status "passed" then none
        else some (GoError.errorString ("API error: " ++ formatResponse (some r)))) ∧
      (∀ apiName reason errno : String,
        (GetErrorAbstraction orbit ctx
          (some { apiName := apiName, status := "", reason := reason, errno := errno })
          none).isSome = true) := by
  refine ⟨?_, ?_, ?_⟩
  · rw [GetErrorAbstraction_eq]
    by_cases hp : EqualFold orbit r.Status "passed" = true <;> simp [hp, Errorf]
  · rw [GetErrorAbstraction_eq]
    rfl
  · intro apiName reason errno
    rw [GetErrorAbstraction_eq]
    have h0 : EqualFold orbit "" "passed" = false := rfl
    simp [APIResponse.Status, h0, Errorf]

/-- C4, the claim refuted: the pair of no transport error and a passed response yields nil,
which is no error and no kind at all, and a text error handed in as transport error comes
back as the very same value, a raw `*errors.errorString`. -/
theorem GetErrorAbstraction_returns_raw_error :
    GetErrorAbstraction noOrbit emptyContext (some (NewAPIResponse "passed" "" "")) none
        = none ∧
      GetErrorAbstraction noOrbit emptyContext (some (NewAPIResponse "failed" "" ""))
        (some connectionRefused) = some connectionRefused ∧
      (GetErrorAbstraction noOrbit emptyContext (some (NewAPIResponse "failed" "" ""))
        (some connectionRefused)).map GoError.dynamicType = some "*errors.errorString" := by
  decide

/-- C4 as amended: for any pair `GetErrorAbstraction` has exactly one of three outcomes,
fixed by the pair: the transport error itself when there is one; nil when there is none and
the response is not nil and its status folds to "passed"; and otherwise a text error, "API
error: nil response" for a nil response and "API error: " followed by the response for any
other status. Nil comes out in no other case, and an error that is not the transport error
is a plain `*errors.errorString`. -/
theorem GetErrorAbstraction_three_outcomes (orbit : Nat → Nat → Bool) (ctx : Context)
    (response : Option APIResponse) (errorIn : Error) :
    GetErrorAbstraction orbit ctx response errorIn =
        (match errorIn, response with
        | some e, _ => some e
        | none, none => some (GoError.errorString "API error: nil response")
        | none, some r =>
          if EqualFold orbit r.Status "passed" then none
          else some (GoError.errorString ("API error: " ++ formatResponse (some r)))) ∧
      (GetErrorAbstraction orbit ctx response errorIn = none ↔
        errorIn = none ∧ ∃ r, response = some r ∧ EqualFold orbit r.Status "passed" = true) ∧
      (∀ e, GetErrorAbstraction orbit ctx response errorIn = some e → errorIn = none →
        e.dynamicType = "*errors.errorString") := by
  rw [GetErrorAbstraction_eq]
  cases errorIn with
  | some e => simp
  | none =>
    cases response with
    | none => simp [Errorf, GoError.dynamicType]
    | some r =>
      by_cases hp : EqualFold orbit r.Status "passed" = true
      · simp [hp]
      · have hf : EqualFold orbit r.Status "passed" = false := by simpa using hp
        simp only [hf, Errorf]
        refine ⟨by simp [hf], by simp [hf], ?_⟩
        intro e he _
        simp only [hf, Bool.false_eq_true, if_false, Option.some.injEq] at he
        rw [← he]
        rfl

/-- C5, the claim refuted: a connection-refused error and an authentication failure, both
handed in as text errors, come back as the very same values, of one and the same dynamic
type; so no assignment of kinds to error types makes the first result Transient and the
second Permanent. -/
theorem GetErrorAbstraction_does_not_classify :
    GetErrorAbstraction noOrbit emptyContext none (some connectionRefused)
        = some connectionRefused ∧
      GetErrorAbstraction noOrbit emptyContext none (some unauthorized)
        = some unauthorized ∧
      ¬ ∃ typeKind : String → Option Kind,
        (GetErrorAbstraction noOrbit emptyContext none (some connectionRefused)).map
            (fun e => typeKind e.dynamicType) = some (some Kind.Transient) ∧
        (GetErrorAbstraction noOrbit emptyContext none (some unauthorized)).map
            (fun e => typeKind e.dynamicType) = some (some Kind.Permanent) := by
  refine ⟨by decide, by decide, ?_⟩
  rintro ⟨typeKind, h1, h2⟩
  have e1 : GetErrorAbstraction noOrbit emptyContext none (some connectionRefused)
      = some connectionRefused := by decide
  have e2 : GetErrorAbstraction noOrbit emptyContext none (some unauthorized)
      = some unauthorized := by decide
  rw [e1] at h1
  rw [e2] at h2
  simp only [Option.map_some', connectionRefused, unauthorized, GoError.dynamicType,
    Option.some.injEq] at h1 h2
  rw [h1] at h2
  exact absurd h2 (by decide)

/-- C5 as amended: for every non-nil transport error the result is that same error, whatever
the response holds; no status is looked at and nothing is added, so whatever kind can be
read off the result is the kind read off the transport error as it was passed in. -/
theorem GetErrorAbstraction_transport_error_unclassified (orbit : Nat → Nat → Bool)
    (ctx : Context) (response other : Option APIResponse) (e : GoError) :
    GetErrorAbstraction orbit ctx response (some e) = some e ∧
      GetErrorAbstraction orbit ctx response (some e)
        = GetErrorAbstraction orbit ctx other (some e) ∧
      (∀ kind : GoError → Option Kind,
        (GetErrorAbstraction orbit ctx response (some e)).bind kind = kind e) := by
  rw [GetErrorAbstraction_eq, GetErrorAbstraction_eq]
  simp

/-- C6: for every input `GetErrorAbstraction` returns to its caller, and a body that ends in a
panic, whatever `errorOut` held then, is turned by the deferred closure into the return of the
non-nil error `ZapiError{}`. -/
theorem GetErrorAbstraction_never_crashes (orbit : Nat → Nat → Bool) (ctx : Context)
    (response : Option APIResponse) (errorIn : Error) :
    (∃ errorOut, GetErrorAbstractionCall orbit ctx response errorIn
        = Outcome.returned errorOut) ∧
      (∀ (errorOut : Error) (f : Fault),
        (recoverGuard { errorOut := errorOut, panicking := some f }).outcome
          = Outcome.returned (some (GoError.zapi ZapiError.zero))) ∧
      (∀ fr : Frame, ∀ f : Fault, (recoverGuard fr).outcome ≠ Outcome.crashed f) := by
  refine ⟨⟨_, recoverGuard_outcome _⟩, ?_, ?_⟩
  · intro errorOut f
    rfl
  · intro fr f
    rw [recoverGuard_outcome]
    simp

/-! ## `Plugin.dockerError` -/

/-- C7: for every bootstrap error `b`, `dockerError(b)` is a new non-nil text error whose
text is `b.Error()` followed by ": use 'journalctl -fu docker' to learn more"; it is neither
`b` nor an error with the raw text of `b`. -/
theorem dockerError_bootstrap_hint {σ : Type} (p : Plugin σ) (message : String) :
    p.dockerError (some (GoError.bootstrap message))
        = some (GoError.errorString
            (message ++ ": use 'journalctl -fu docker' to learn more")) ∧
      p.dockerError (some (GoError.bootstrap message)) ≠ some (GoError.bootstrap message) ∧
      p.dockerError (some (GoError.bootstrap message))
        ≠ some (GoError.errorString message) := by
  refine ⟨rfl, ?_, ?_⟩
  · simp [Plugin.dockerError, Errorf]
  · simp only [Plugin.dockerError, Errorf, journalHint]
    intro h
    have hl := congrArg String.length (GoError.errorString.inj (Option.some.inj h))
    rw [String.length_append] at hl
    have : (": use 'journalctl -fu docker' to learn more" : String).length = 43 := by decide
    omega

/-- C8: `dockerError(nil)` is nil, and for every error `e` that is not a bootstrap error
`dockerError(e)` is `e`. -/
theorem dockerError_identity {σ : Type} (p : Plugin σ) (e : GoError)
    (hne : ∀ message, e ≠ GoError.bootstrap message) :
    p.dockerError none = none ∧ p.dockerError (some e) = some e := by
  refine ⟨rfl, ?_⟩
  cases e with
  | bootstrap m => exact absurd rfl (hne m)
  | errorString s => rfl
  | zapi z => rfl
  | other ty s => rfl

/-- Witness of C8 at a text error. -/
theorem dockerError_identity_witness :
    (∀ message, GoError.errorString "volume not found" ≠ GoError.bootstrap message) ∧
      (pluginOn countingOrchestrator).dockerError none = none ∧
      (pluginOn countingOrchestrator).dockerError
        (some (GoError.errorString "volume not found"))
        = some (GoError.errorString "volume not found") :=
  ⟨fun _ h => GoError.noConfusion h,
    dockerError_identity (pluginOn countingOrchestrator)
      (GoError.errorString "volume not found") (fun _ h => GoError.noConfusion h)⟩

/-! ## `Plugin.Create` and `Plugin.List` -/

/-- C9: when `getStorageClass` or `getVolumeConfig` fails, `Create` returns `dockerError` of
that error and makes no orchestrator call of its own; otherwise it makes exactly one call,
`CloneVolume` when `CloneSourceVolume` is not empty and `AddVolume` when it is, and returns
`dockerError` of the error of that call. -/
theorem Create_calls_one_operation {σ : Type} (p : Plugin σ) (h : Helpers σ)
    (request : CreateRequest) (w : World σ) :
    (∀ err w1, h.getStorageClass request.Options p.orchestrator w = (.error err, w1) →
        p.Create h request w = (p.dockerError (some err), w1)) ∧
      (∀ sc w1 err, h.getStorageClass request.Options p.orchestrator w = (.ok sc, w1) →
        h.getVolumeConfig request.Name sc.Name request.Options = .error err →
        p.Create h request w = (p.dockerError (some err), w1)) ∧
      (∀ sc w1 volConfig,
        h.getStorageClass request.Options p.orchestrator w = (.ok sc, w1) →
        h.getVolumeConfig request.Name sc.Name request.Options = .ok volConfig →
        volConfig.CloneSourceVolume ≠ "" →
        p.Create h request w =
          (p.dockerError (errOf (p.orchestrator.CloneVolume volConfig w1.st).1),
            { st := (p.orchestrator.CloneVolume volConfig w1.st).2,
              calls := w1.calls ++ [OrchCall.CloneVolume volConfig] })) ∧
      (∀ sc w1 volConfig,
        h.getStorageClass request.Options p.orchestrator w = (.ok sc, w1) →
        h.getVolumeConfig request.Name sc.Name request.Options = .ok volConfig →
        volConfig.CloneSourceVolume = "" →
        p.Create h request w =
          (p.dockerError (errOf (p.orchestrator.AddVolume volConfig w1.st).1),
            { st := (p.orchestrator.AddVolume volConfig w1.st).2,
              calls := w1.calls ++ [OrchCall.AddVolume volConfig] })) := by
  refine ⟨?_, ?_, ?_, ?_⟩
  · intro err w1 hsc
    simp [Plugin.Create, hsc]
  · intro sc w1 err hsc hvc
    simp [Plugin.Create, hsc, hvc]
  · intro sc w1 volConfig hsc hvc hclone
    simp [Plugin.Create, hsc, hvc, hclone, Orchestrator.callCloneVolume]
  · intro sc w1 volConfig hsc hvc hclone
    simp [Plugin.Create, hsc, hvc, hclone, Orchestrator.callAddVolume]

/-- Witness of C9: a request with the option `from` is cloned, with one `CloneVolume` call. -/
theorem Create_calls_one_operation_witness :
    (plainHelpers.getStorageClass [("from", "src")] countingOrchestrator
          { st := 0, calls := [] }
        = (.ok { Name := "basic" }, { st := 0, calls := [] }) ∧
      plainHelpers.getVolumeConfig "v" "basic" [("from", "src")]
        = .ok { Name := "v", InternalName := "trident_v", CloneSourceVolume := "src" } ∧
      ("src" : String) ≠ "") ∧
    (pluginOn countingOrchestrator).Create plainHelpers
        { Name := "v", Options := [("from", "src")] } { st := 0, calls := [] }
      = (none, { st := 1, calls := [OrchCall.CloneVolume
          { Name := "v", InternalName := "trident_v", CloneSourceVolume := "src" }] }) :=
  ⟨⟨rfl, rfl, by decide⟩,
    (Create_calls_one_operation (pluginOn countingOrchestrator) plainHelpers
      { Name := "v", Options := [("from", "src")] } { st := 0, calls := [] }).2.2.1
      { Name := "basic" } { st := 0, calls := [] }
      { Name := "v", InternalName := "trident_v", CloneSourceVolume := "src" }
      rfl rfl (by decide)⟩

/-- C10: `List` calls `ReloadVolumes` first; when that fails it returns an empty response
with the error, as `dockerError` renders it, and `ListVolumes` is not called. When both calls
succeed it returns, without error, one Docker volume per orchestrator volume, in the same
order, each named by `Config.Name`. -/
theorem List_reloads_then_lists {σ : Type} (p : Plugin σ) (w : World σ) :
    (∀ err st1, p.orchestrator.ReloadVolumes w.st = (some err, st1) →
        p.List w = (({ Volumes := [] }, p.dockerError (some err)),
          { st := st1, calls := w.calls ++ [OrchCall.ReloadVolumes] }) ∧
        (p.List w).1.2.isSome = true) ∧
      (∀ st1 vols st2, p.orchestrator.ReloadVolumes w.st = (none, st1) →
        p.orchestrator.ListVolumes st1 = (.ok vols, st2) →
        (p.List w).2 =
          { st := st2, calls := w.calls ++ [OrchCall.ReloadVolumes, OrchCall.ListVolumes] } ∧
        (p.List w).1.2 = none ∧
        (p.List w).1.1.Volumes
          = vols.map (fun v => { Name := v.Config.Name, Mountpoint := "", Status := [] }) ∧
        (p.List w).1.1.Volumes.length = vols.length ∧
        (p.List w).1.1.Volumes.map (fun d => d.Name) = vols.map (fun v => v.Config.Name)) := by
  constructor
  · intro err st1 hr
    have hl : p.List w = (({ Volumes := [] }, p.dockerError (some err)),
        { st := st1, calls := w.calls ++ [OrchCall.ReloadVolumes] }) := by
      simp [Plugin.List, Orchestrator.callReloadVolumes, hr]
    refine ⟨hl, ?_⟩
    rw [hl]
    exact dockerError_isSome p err
  · intro st1 vols st2 hr hv
    have hl : p.List w = (({ Volumes := listLoop vols }, none),
        { st := st2,
          calls := w.calls ++ [OrchCall.ReloadVolumes, OrchCall.ListVolumes] }) := by
      simp [Plugin.List, Orchestrator.callReloadVolumes, Orchestrator.callListVolumes, hr, hv]
    rw [hl, listLoop_eq_map]
    simp [Function.comp_def]

/-- Witness of C10: a failing reload stops `List` after one call, and on the counting
orchestrator `List` returns the volumes `a` and `b` after two calls. -/
theorem List_reloads_then_lists_witness :
    (staleOrchestrator.ReloadVolumes 0 = (some (GoError.errorString "reload failed"), 1) ∧
      (pluginOn staleOrchestrator).List { st := 0, calls := [] }
        = (({ Volumes := [] }, some (GoError.errorString "reload failed")),
            { st := 1, calls := [OrchCall.ReloadVolumes] })) ∧
    (countingOrchestrator.ReloadVolumes 0 = (none, 1) ∧
      ((pluginOn countingOrchestrator).List { st := 0, calls := [] }).1.1.Volumes
        = [{ Name := "a", Mountpoint := "", Status := [] },
           { Name := "b", Mountpoint := "", Status := [] }] ∧
      ((pluginOn countingOrchestrator).List { st := 0, calls := [] }).2.calls
        = [OrchCall.ReloadVolumes, OrchCall.ListVolumes]) :=
  ⟨⟨rfl,
      ((List_reloads_then_lists (pluginOn staleOrchestrator) { st := 0, calls := [] }).1
        (GoError.errorString "reload failed") 1 rfl).1⟩,
    rfl,
    ((List_reloads_then_lists (pluginOn countingOrchestrator) { st := 0, calls := [] }).2
      1 _ 2 rfl rfl).2.2.1,
    congrArg World.calls
      ((List_reloads_then_lists (pluginOn countingOrchestrator) { st := 0, calls := [] }).2
        1 _ 2 rfl rfl).1⟩

/-! ## `Plugin.Get`, `getPath`, `Mount`, `Unmount` and `Path` -/

/-- C11: `Get` calls `ReloadVolumes`, then `GetVolume`, then `ListVolumeSnapshots`; at the
first of them that fails it returns a response with a nil volume together with `dockerError`
of that error, and the trace holds no later call. -/
theorem Get_stops_at_first_failure {σ : Type} (p : Plugin σ) (host : Host σ)
    (request : GetRequest) (w : World σ) :
    (∀ err st1, p.orchestrator.ReloadVolumes w.st = (some err, st1) →
        p.Get host request w = (({ Volume := none }, p.dockerError (some err)),
          { st := st1, calls := w.calls ++ [OrchCall.ReloadVolumes] })) ∧
      (∀ st1 err st2, p.orchestrator.ReloadVolumes w.st = (none, st1) →
        p.orchestrator.GetVolume request.Name st1 = (.error err, st2) →
        p.Get host request w = (({ Volume := none }, p.dockerError (some err)),
          { st := st2,
            calls := w.calls ++ [OrchCall.ReloadVolumes, OrchCall.GetVolume request.Name] })) ∧
      (∀ st1 vol st2 err st3, p.orchestrator.ReloadVolumes w.st = (none, st1) →
        p.orchestrator.GetVolume request.Name st1 = (.ok vol, st2) →
        p.orchestrator.ListVolumeSnapshots request.Name st2 = (.error err, st3) →
        p.Get host request w = (({ Volume := none }, p.dockerError (some err)),
          { st := st3,
            calls := w.calls ++ [OrchCall.ReloadVolumes, OrchCall.GetVolume request.Name,
              OrchCall.ListVolumeSnapshots request.Name] })) := by
  refine ⟨?_, ?_, ?_⟩
  · intro err st1 hr
    simp [Plugin.Get, Orchestrator.callReloadVolumes, hr]
  · intro st1 err st2 hr hg
    simp [Plugin.Get, Orchestrator.callReloadVolumes, Orchestrator.callGetVolume, hr, hg]
  · intro st1 vol st2 err st3 hr hg hs
    simp [Plugin.Get, Orchestrator.callReloadVolumes, Orchestrator.callGetVolume,
      Orchestrator.callListVolumeSnapshots, hr, hg, hs]

/-- Witness of C11: on an orchestrator without volumes `Get` stops after `GetVolume`. -/
theorem Get_stops_at_first_failure_witness :
    (emptyOrchestrator.ReloadVolumes 0 = (none, 1) ∧
      emptyOrchestrator.GetVolume "a" 1
        = (.error (GoError.errorString "volume not found"), 2)) ∧
    (pluginOn emptyOrchestrator).Get diskHost { Name := "a" } { st := 0, calls := [] }
      = (({ Volume := none }, some (GoError.errorString "volume not found")),
          { st := 2, calls := [OrchCall.ReloadVolumes, OrchCall.GetVolume "a"] }) :=
  ⟨⟨rfl, rfl⟩,
    (Get_stops_at_first_failure (pluginOn emptyOrchestrator) diskHost { Name := "a" }
      { st := 0, calls := [] }).2.1 1 (GoError.errorString "volume not found") 2 rfl rfl⟩

/-- C12: when `ReloadVolumes`, `GetVolume` and `ListVolumeSnapshots` succeed, `Get` succeeds
with a volume named `Config.Name` whose status holds the snapshot list under "Snapshots"; its
mount point is the mount path when `Lstat` finds it and the empty string when `Lstat` fails,
and in both cases the error of `Get` is nil. -/
theorem Get_reports_mountpoint_if_mounted {σ : Type} (p : Plugin σ) (host : Host σ)
    (request : GetRequest) (w : World σ) (st1 st2 st3 : σ) (vol : VolumeExternal)
    (snapshots : List SnapshotExternal)
    (hr : p.orchestrator.ReloadVolumes w.st = (none, st1))
    (hg : p.orchestrator.GetVolume request.Name st1 = (.ok vol, st2))
    (hs : p.orchestrator.ListVolumeSnapshots request.Name st2 = (.ok snapshots, st3)) :
    (p.Get host request w).1.2 = none ∧
      (∃ v, (p.Get host request w).1.1.Volume = some v ∧
        v.Name = vol.Config.Name ∧
        v.Status.lookup "Snapshots" = some snapshots ∧
        (∀ fi, host.Lstat st3 (host.Join p.volumePath vol.Config.InternalName)
            = (some fi, none) →
          v.Mountpoint = host.Join p.volumePath vol.Config.InternalName) ∧
        (∀ e, host.Lstat st3 (host.Join p.volumePath vol.Config.InternalName)
            = (none, some e) →
          v.Mountpoint = "")) := by
  have hget : p.Get host request w =
      (({ Volume := some
            { Name := vol.Config.Name,
              Mountpoint := (p.getPath host vol st3).1,
              Status := [("Snapshots", snapshots)] } }, none),
        { st := st3,
          calls := w.calls ++ [OrchCall.ReloadVolumes, OrchCall.GetVolume request.Name,
            OrchCall.ListVolumeSnapshots request.Name] }) := by
    simp [Plugin.Get, Orchestrator.callReloadVolumes, Orchestrator.callGetVolume,
      Orchestrator.callListVolumeSnapshots, hr, hg, hs]
  rw [hget]
  refine ⟨rfl, _, rfl, rfl, ?_, ?_, ?_⟩
  · simp [List.lookup]
  · intro fi hl
    simp [Plugin.getPath, Plugin.mountpoint, hl, Host.osIsNotExist]
  · intro e hl
    simp only [Plugin.getPath, Plugin.mountpoint, hl]
    by_cases hne : host.osIsNotExist (some e) = true <;> simp [hne]

/-- Witness of C12: volume `a` is mounted on the sample disk and volume `b` is not. -/
theorem Get_reports_mountpoint_if_mounted_witness :
    (countingOrchestrator.ReloadVolumes 0 = (none, 1) ∧
      countingOrchestrator.GetVolume "b" 1
        = (.ok { Config := { Name := "b", InternalName := "trident_b",
                             CloneSourceVolume := "" } }, 2) ∧
      countingOrchestrator.ListVolumeSnapshots "b" 2 = (.ok [], 3)) ∧
    ((pluginOn countingOrchestrator).Get diskHost { Name := "b" }
        { st := 0, calls := [] }).1.2 = none :=
  ⟨⟨rfl, rfl, rfl⟩,
    (Get_reports_mountpoint_if_mounted (pluginOn countingOrchestrator) diskHost
      { Name := "b" } { st := 0, calls := [] } 1 2 3
      { Config := { Name := "b", InternalName := "trident_b", CloneSourceVolume := "" } } []
      rfl rfl rfl).1⟩

/-- C13: `getPath` returns the joined mount path with a nil error when `Lstat` yields file
info; when `Lstat` fails it returns the empty string with the `Lstat` error if the path does
not exist and with "could not stat ..." otherwise. As `Lstat` yields either file info or an
error, `getPath` succeeds exactly when `Lstat` yields file info. -/
theorem getPath_mountpoint_iff_exists {σ : Type} (p : Plugin σ) (host : Host σ)
    (vol : VolumeExternal) (st : σ)
    (hwf : (∃ fi, host.Lstat st (host.Join p.volumePath vol.Config.InternalName)
              = (some fi, none)) ∨
           (∃ e, host.Lstat st (host.Join p.volumePath vol.Config.InternalName)
              = (none, some e))) :
    (p.getPath host vol st = (host.Join p.volumePath vol.Config.InternalName, none)
        ↔ (host.Lstat st (host.Join p.volumePath vol.Config.InternalName)).1.isSome = true) ∧
      (∀ e, host.Lstat st (host.Join p.volumePath vol.Config.InternalName) = (none, some e) →
        host.IsNotExist e = true → p.getPath host vol st = ("", some e)) ∧
      (∀ e, host.Lstat st (host.Join p.volumePath vol.Config.InternalName) = (none, some e) →
        host.IsNotExist e = false →
        p.getPath host vol st
          = ("", some (GoError.errorString
              ("could not stat " ++ host.Join p.volumePath vol.Config.InternalName)))) := by
  refine ⟨?_, ?_, ?_⟩
  · rcases hwf with ⟨fi, hl⟩ | ⟨e, hl⟩
    · simp [Plugin.getPath, Plugin.mountpoint, hl, Host.osIsNotExist]
    · simp only [Plugin.getPath, Plugin.mountpoint, hl, Host.osIsNotExist]
      by_cases hne : host.IsNotExist e = true <;> simp [hne, Errorf]
  · intro e hl hne
    simp [Plugin.getPath, Plugin.mountpoint, hl, Host.osIsNotExist, hne]
  · intro e hl hne
    simp [Plugin.getPath, Plugin.mountpoint, hl, Host.osIsNotExist, hne, Errorf]

/-- Witness of C13: on the sample disk the mount point of volume `a` exists. -/
theorem getPath_mountpoint_iff_exists_witness :
    (∃ fi, diskHost.Lstat 0
        (diskHost.Join (pluginOn countingOrchestrator).volumePath "trident_a")
          = (some fi, none)) ∧
    ((pluginOn countingOrchestrator).getPath diskHost
        { Config := { Name := "a", InternalName := "trident_a", CloneSourceVolume := "" } } 0
        = ("/var/lib/docker-volumes/netapp/trident_a", none)
      ↔ (diskHost.Lstat 0 "/var/lib/docker-volumes/netapp/trident_a").1.isSome = true) :=
  ⟨⟨{ isDir := true }, by decide⟩,
    (getPath_mountpoint_iff_exists (pluginOn countingOrchestrator) diskHost
      { Config := { Name := "a", InternalName := "trident_a", CloneSourceVolume := "" } } 0
      (Or.inl ⟨{ isDir := true }, by decide⟩)).1⟩

/-- C14: once `GetVolume` has found the volume, `Mount` attaches it at
`filepath.Join(volumePath, Config.InternalName)` and on success returns that path, `Unmount`
detaches it from the same path, and `Path` returns the same path when `Lstat` finds it. The
path is built from `volumePath` and the internal name only, and the request ID plays no part
in what `Mount` and `Unmount` do. -/
theorem mountpoint_agrees {σ : Type} (p : Plugin σ) (host : Host σ) (name : String)
    (w : World σ) (vol : VolumeExternal) (st1 : σ)
    (hg : p.orchestrator.GetVolume name w.st = (.ok vol, st1)) :
    (∀ id, (p.Mount host { Name := name, ID := id } w).2.calls
        = w.calls ++ [OrchCall.GetVolume name,
            OrchCall.AttachVolume name (host.Join p.volumePath vol.Config.InternalName)]) ∧
      (∀ id, (p.orchestrator.AttachVolume name
          (host.Join p.volumePath vol.Config.InternalName) st1).1 = none →
        (p.Mount host { Name := name, ID := id } w).1
          = ({ Mountpoint := host.Join p.volumePath vol.Config.InternalName }, none)) ∧
      (∀ id, (p.Unmount host { Name := name, ID := id } w).2.calls
        = w.calls ++ [OrchCall.GetVolume name,
            OrchCall.DetachVolume name (host.Join p.volumePath vol.Config.InternalName)]) ∧
      (∀ fi, host.Lstat st1 (host.Join p.volumePath vol.Config.InternalName)
          = (some fi, none) →
        (p.Path host { Name := name } w).1
          = ({ Mountpoint := host.Join p.volumePath vol.Config.InternalName }, none)) ∧
      (∀ id1 id2, p.Mount host { Name := name, ID := id1 } w
          = p.Mount host { Name := name, ID := id2 } w ∧
        p.Unmount host { Name := name, ID := id1 } w
          = p.Unmount host { Name := name, ID := id2 } w) := by
  refine ⟨?_, ?_, ?_, ?_, ?_⟩
  · intro id
    simp only [Plugin.Mount, Orchestrator.callGetVolume, hg, Orchestrator.callAttachVolume,
      Plugin.mountpoint]
    cases h : (p.orchestrator.AttachVolume name
      (host.Join p.volumePath vol.Config.InternalName) st1).1 <;> simp [h]
  · intro id ha
    simp only [Plugin.Mount, Orchestrator.callGetVolume, hg, Orchestrator.callAttachVolume,
      Plugin.mountpoint]
    simp [ha]
  · intro id
    simp only [Plugin.Unmount, Orchestrator.callGetVolume, hg, Orchestrator.callDetachVolume,
      Plugin.mountpoint]
    cases h : (p.orchestrator.DetachVolume name
      (host.Join p.volumePath vol.Config.InternalName) st1).1 <;> simp [h]
  · intro fi hl
    simp [Plugin.Path, Orchestrator.callGetVolume, hg, Plugin.getPath, Plugin.mountpoint, hl,
      Host.osIsNotExist]
  · intro id1 id2
    exact ⟨rfl, rfl⟩

/-- Witness of C14: mounting volume `a` attaches it at its mount point on the sample host. -/
theorem mountpoint_agrees_witness :
    countingOrchestrator.GetVolume "a" 0
        = (.ok { Config := { Name := "a", InternalName := "trident_a",
                             CloneSourceVolume := "" } }, 1) ∧
    ((pluginOn countingOrchestrator).Mount diskHost { Name := "a", ID := "x" }
        { st := 0, calls := [] }).2.calls
      = [OrchCall.GetVolume "a",
          OrchCall.AttachVolume "a" "/var/lib/docker-volumes/netapp/trident_a"] :=
  ⟨rfl,
    (mountpoint_agrees (pluginOn countingOrchestrator) diskHost "a" { st := 0, calls := [] }
      { Config := { Name := "a", InternalName := "trident_a", CloneSourceVolume := "" } } 1
      rfl).1 "x"⟩

/-! ## The generated REST readers -/

/-- C15: when the body is consumed without error, each of the two readers returns a non-nil
result with a nil error if and only if the status code `c` is in 200..299; for any other code
the result is nil and the error is the default response with `Code() = c`. The documented
code (201, respectively 200) gives the Created, respectively OK response, every other code
in 200..299 gives the default response as the result. -/
theorem ReadResponse_success_iff_2xx {P E : Type} [Inhabited P] [Inhabited E]
    (response : ClientResponse) (consumerP : ConsumeAt P) (consumerE : ConsumeAt E)
    (hP : consumeFailed (consumerP response.Body default).2 = false)
    (hE : consumeFailed (consumerE response.Body default).2 = false) :
    (((FpolicyEventCreateReader.ReadResponse response consumerP consumerE).1.isSome = true ∧
        (FpolicyEventCreateReader.ReadResponse response consumerP consumerE).2.isNone = true)
        ↔ (200 ≤ response.Code ∧ response.Code ≤ 299)) ∧
      (¬ (200 ≤ response.Code ∧ response.Code ≤ 299) →
        ∃ d : FpolicyEventCreateDefault E, d.Code = response.Code ∧
          FpolicyEventCreateReader.ReadResponse response consumerP consumerE
            = (none, some (FpolicyEventCreateFailure.Default d))) ∧
      (response.Code = 201 →
        ∃ r, FpolicyEventCreateReader.ReadResponse response consumerP consumerE
          = (some (FpolicyEventCreateResult.Created r), none)) ∧
      (200 ≤ response.Code ∧ response.Code ≤ 299 → response.Code ≠ 201 →
        ∃ d : FpolicyEventCreateDefault E, d.Code = response.Code ∧
          FpolicyEventCreateReader.ReadResponse response consumerP consumerE
            = (some (FpolicyEventCreateResult.Default d), none)) ∧
      (((SnaplockRetentionOperationDeleteReader.ReadResponse response consumerE).1.isSome = true
          ∧ (SnaplockRetentionOperationDeleteReader.ReadResponse response
              consumerE).2.isNone = true)
        ↔ (200 ≤ response.Code ∧ response.Code ≤ 299)) ∧
      (¬ (200 ≤ response.Code ∧ response.Code ≤ 299) →
        ∃ d : SnaplockRetentionOperationDeleteDefault E, d.Code = response.Code ∧
          SnaplockRetentionOperationDeleteReader.ReadResponse response consumerE
            = (none, some (SnaplockRetentionOperationDeleteFailure.Default d))) ∧
      (response.Code = 200 →
        ∃ r, SnaplockRetentionOperationDeleteReader.ReadResponse response consumerE
          = (some (SnaplockRetentionOperationDeleteResult.OK r), none)) ∧
      (200 ≤ response.Code ∧ response.Code ≤ 299 → response.Code ≠ 200 →
        ∃ d : SnaplockRetentionOperationDeleteDefault E, d.Code = response.Code ∧
          SnaplockRetentionOperationDeleteReader.ReadResponse response consumerE
            = (some (SnaplockRetentionOperationDeleteResult.Default d), none)) := by
  have hF : FpolicyEventCreateReader.ReadResponse response consumerP consumerE =
      if response.Code = 201 then
        (some (FpolicyEventCreateResult.Created
          { Payload := some (consumerP response.Body default).1 }), none)
      else if 200 ≤ response.Code ∧ response.Code ≤ 299 then
        (some (FpolicyEventCreateResult.Default
          { _statusCode := response.Code,
            Payload := some (consumerE response.Body default).1 }), none)
      else
        (none, some (FpolicyEventCreateFailure.Default
          { _statusCode := response.Code,
            Payload := some (consumerE response.Body default).1 })) := by
    unfold FpolicyEventCreateReader.ReadResponse
    rw [fpolicy_created_read response consumerP hP, fpolicy_default_read response consumerE hE]
    simp only [tdiv_hundred_eq_two]
  have hS : SnaplockRetentionOperationDeleteReader.ReadResponse response consumerE =
      if response.Code = 200 then
        (some (SnaplockRetentionOperationDeleteResult.OK {}), none)
      else if 200 ≤ response.Code ∧ response.Code ≤ 299 then
        (some (SnaplockRetentionOperationDeleteResult.Default
          { _statusCode := response.Code,
            Payload := some (consumerE response.Body default).1 }), none)
      else
        (none, some (SnaplockRetentionOperationDeleteFailure.Default
          { _statusCode := response.Code,
            Payload := some (consumerE response.Body default).1 })) := by
    unfold SnaplockRetentionOperationDeleteReader.ReadResponse
    rw [snaplock_default_read response consumerE hE]
    simp only [tdiv_hundred_eq_two, SnaplockRetentionOperationDeleteOK.readResponse,
      NewSnaplockRetentionOperationDeleteOK]
  rw [hF, hS]
  refine ⟨?_, ?_, ?_, ?_, ?_, ?_, ?_, ?_⟩
  · by_cases h1 : response.Code = 201
    · simp [h1]
    · by_cases h2 : 200 ≤ response.Code ∧ response.Code ≤ 299 <;> simp [h1, h2]
  · intro h2
    have h1 : response.Code ≠ 201 := by omega
    refine ⟨{ _statusCode := response.Code,
              Payload := some (consumerE response.Body default).1 }, rfl, ?_⟩
    simp [h1, h2]
  · intro h1
    refine ⟨{ Payload := some (consumerP response.Body default).1 }, ?_⟩
    simp [h1]
  · intro h2 h1
    refine ⟨{ _statusCode := response.Code,
              Payload := some (consumerE response.Body default).1 }, rfl, ?_⟩
    simp [h1, h2]
  · by_cases h1 : response.Code = 200
    · simp [h1]
    · by_cases h2 : 200 ≤ response.Code ∧ response.Code ≤ 299 <;> simp [h1, h2]
  · intro h2
    have h1 : response.Code ≠ 200 := by omega
    refine ⟨{ _statusCode := response.Code,
              Payload := some (consumerE response.Body default).1 }, rfl, ?_⟩
    simp [h1, h2]
  · intro h1
    refine ⟨{}, ?_⟩
    simp [h1]
  · intro h2 h1
    refine ⟨{ _statusCode := response.Code,
              Payload := some (consumerE response.Body default).1 }, rfl, ?_⟩
    simp [h1, h2]

/-- Witness of C15: status 204 is read as a success by both readers. -/
theorem ReadResponse_success_iff_2xx_witness :
    (consumeFailed (echoConsumer noContentResponse.Body default).2 = false) ∧
    (((FpolicyEventCreateReader.ReadResponse noContentResponse echoConsumer
          echoConsumer).1.isSome = true ∧
        (FpolicyEventCreateReader.ReadResponse noContentResponse echoConsumer
          echoConsumer).2.isNone = true)
      ↔ (200 ≤ noContentResponse.Code ∧ noContentResponse.Code ≤ 299)) :=
  ⟨by decide,
    (ReadResponse_success_iff_2xx noContentResponse echoConsumer echoConsumer
      (by decide) (by decide)).1⟩

/-! ## The generated models -/

/-- C16: for an `FcInterface` whose nested objects are nil, `Validate` returns nil if and only
if `DataProtocol` is empty, "fcp" or "fc_nvme" and `State` is empty, "up" or "down"; the
comparison is exact, so "FCP" and "Up" are rejected. -/
theorem FcInterface_Validate_enums {H P A : Type} (lib : ModelsLib H P A)
    (formats : Option Registry) (m : FcInterface H P)
    (hLinks : m.Links = none) (hLocation : m.Location = none) (hSvm : m.Svm = none) :
    (m.Validate lib formats = none ↔
        (m.DataProtocol = "" ∨ m.DataProtocol = "fcp" ∨ m.DataProtocol = "fc_nvme") ∧
        (m.State = "" ∨ m.State = "up" ∨ m.State = "down")) ∧
      (m.DataProtocol = "FCP" → (m.Validate lib formats).isSome = true) ∧
      (m.State = "Up" → (m.Validate lib formats).isSome = true) := by
  have hiff : m.Validate lib formats = none ↔
      (m.DataProtocol = "" ∨ m.DataProtocol = "fcp" ∨ m.DataProtocol = "fc_nvme") ∧
      (m.State = "" ∨ m.State = "up" ∨ m.State = "down") := by
    have hD : m.validateDataProtocol lib formats = none ↔
        (m.DataProtocol = "" ∨ m.DataProtocol = "fcp" ∨ m.DataProtocol = "fc_nvme") := by
      unfold FcInterface.validateDataProtocol FcInterface.validateDataProtocolEnum
      by_cases hz : swag.IsZeroString m.DataProtocol = true
      · rw [if_pos hz]
        exact ⟨fun _ => Or.inl ((IsZeroString_iff _).mp hz), fun _ => rfl⟩
      · have hne : m.DataProtocol ≠ "" := fun h => hz ((IsZeroString_iff _).mpr h)
        simp [hz, hne, map_validation_eq_none, EnumCase_sensitive_eq_none,
          fcInterfaceTypeDataProtocolPropEnum]
    have hS : m.validateState lib formats = none ↔
        (m.State = "" ∨ m.State = "up" ∨ m.State = "down") := by
      unfold FcInterface.validateState FcInterface.validateStateEnum
      by_cases hz : swag.IsZeroString m.State = true
      · rw [if_pos hz]
        exact ⟨fun _ => Or.inl ((IsZeroString_iff _).mp hz), fun _ => rfl⟩
      · have hne : m.State ≠ "" := fun h => hz ((IsZeroString_iff _).mpr h)
        simp [hz, hne, map_validation_eq_none, EnumCase_sensitive_eq_none,
          fcInterfaceTypeStatePropEnum]
    unfold FcInterface.Validate
    rw [compositeOf_eq_none]
    simp only [List.mem_cons, List.mem_singleton, forall_eq_or_imp, forall_eq, List.not_mem_nil,
      false_imp_iff, implies_true, and_true]
    rw [hD, hS]
    simp [FcInterface.validateLinks, FcInterface.validateLocation, FcInterface.validateSvm,
      hLinks, hLocation, hSvm, swag.IsZeroPointer]
  refine ⟨hiff, ?_, ?_⟩
  · intro hd
    cases hv : m.Validate lib formats with
    | some e => rfl
    | none =>
      have := (hiff.mp hv).1
      rw [hd] at this
      revert this
      decide
  · intro hs
    cases hv : m.Validate lib formats with
    | some e => rfl
    | none =>
      have := (hiff.mp hv).2
      rw [hs] at this
      revert this
      decide

/-- Witness of C16: an interface for "fcp" in state "up" validates. -/
theorem FcInterface_Validate_enums_witness :
    (fcpInterface.Links = none ∧ fcpInterface.Location = none ∧ fcpInterface.Svm = none) ∧
    (fcpInterface.Validate plainLib none = none ↔
      (fcpInterface.DataProtocol = "" ∨ fcpInterface.DataProtocol = "fcp" ∨
        fcpInterface.DataProtocol = "fc_nvme") ∧
      (fcpInterface.State = "" ∨ fcpInterface.State = "up" ∨ fcpInterface.State = "down")) :=
  ⟨⟨rfl, rfl, rfl⟩, (FcInterface_Validate_enums plainLib none fcpInterface rfl rfl rfl).1⟩

/-- C17: in a request context `ContextValidate` of an `FcInterface` fails as soon as one of
`PortAddress`, `State`, `UUID`, `Wwnn`, `Wwpn` is not empty; with the five empty and the
nested objects nil it returns nil; outside a request context the five fields are not looked
at, and with the nested objects nil the result is nil whatever they hold. -/
theorem FcInterface_ContextValidate_readOnly {H P A : Type} (lib : ModelsLib H P A)
    (ctx : Context) (formats : Option Registry) (m : FcInterface H P) :
    (validate.extractOperationType ctx = OperationType.request →
        (m.PortAddress ≠ "" ∨ m.State ≠ "" ∨ m.UUID ≠ "" ∨ m.Wwnn ≠ "" ∨ m.Wwpn ≠ "") →
        (m.ContextValidate lib ctx formats).isSome = true) ∧
      (validate.extractOperationType ctx = OperationType.request →
        m.Links = none → m.Location = none → m.Svm = none →
        m.PortAddress = "" → m.State = "" → m.UUID = "" → m.Wwnn = "" → m.Wwpn = "" →
        m.ContextValidate lib ctx formats = none) ∧
      (validate.extractOperationType ctx ≠ OperationType.request →
        m.Links = none → m.Location = none → m.Svm = none →
        m.ContextValidate lib ctx formats = none) := by
  refine ⟨?_, ?_, ?_⟩
  · intro hreq hfield
    cases hv : m.ContextValidate lib ctx formats with
    | some e => rfl
    | none =>
      have h := (FcInterface_ContextValidate_eq_none lib ctx formats m).mp hv
      simp only [hreq, ne_eq, not_true_eq_false, false_or] at h
      obtain ⟨_, _, h1, h2, _, h3, h4, h5⟩ := h
      rcases hfield with hf | hf | hf | hf | hf
      · exact absurd h1 hf
      · exact absurd h2 hf
      · exact absurd h3 hf
      · exact absurd h4 hf
      · exact absurd h5 hf
  · intro _ hLinks hLocation hSvm h1 h2 h3 h4 h5
    rw [FcInterface_ContextValidate_eq_none]
    simp [FcInterface.contextValidateLinks, FcInterface.contextValidateLocation,
      FcInterface.contextValidateSvm, hLinks, hLocation, hSvm, h1, h2, h3, h4, h5]
  · intro hreq hLinks hLocation hSvm
    rw [FcInterface_ContextValidate_eq_none]
    simp [FcInterface.contextValidateLinks, FcInterface.contextValidateLocation,
      FcInterface.contextValidateSvm, hLinks, hLocation, hSvm, hreq]

/-- Witness of C17: in a request context an interface that carries a state is rejected. -/
theorem FcInterface_ContextValidate_readOnly_witness :
    (validate.extractOperationType requestContext = OperationType.request ∧
      fcpInterface.State ≠ "") ∧
    (fcpInterface.ContextValidate plainLib requestContext none).isSome = true :=
  ⟨⟨by decide, by decide⟩,
    (FcInterface_ContextValidate_readOnly plainLib requestContext none fcpInterface).1
      (by decide) (Or.inr (Or.inl (by decide)))⟩

/-- C18: the zero values of `FcInterface` and of `ClusterPeerSetupResponse` pass `Validate`,
and `Validate` of a `ClusterPeerSetupResponse` returns nil if and only if each of `Links`,
`Authentication` and `IPAddress` that is not nil validates. -/
theorem Validate_fields_optional {H P A : Type} (lib : ModelsLib H P A)
    (formats : Option Registry) (m : ClusterPeerSetupResponse H A) :
    (FcInterface.zero : FcInterface H P).Validate lib formats = none ∧
      (ClusterPeerSetupResponse.zero : ClusterPeerSetupResponse H A).Validate lib formats
        = none ∧
      (m.Validate lib formats = none ↔
        (∀ links, m.Links = some links → links.Validate lib formats = none) ∧
        (∀ authentication, m.Authentication = some authentication →
          authentication.Validate lib formats = none) ∧
        (∀ ipAddress, m.IPAddress = some ipAddress →
          lib.IPAddress.Validate formats ipAddress = none)) := by
  refine ⟨rfl, ?_, ClusterPeerSetupResponse_Validate_eq_none lib formats m⟩
  rw [ClusterPeerSetupResponse_Validate_eq_none]
  simp [ClusterPeerSetupResponse.zero]

/-- C19: every `UnmarshalBinary` of the generated models, that of `FcInterface`, of
`ClusterPeerSetupResponse` and of each of their eight nested types, decodes into a fresh zero
value. When decoding fails the error is returned and the receiver is what it was; when it
succeeds the receiver is the decoded value, which does not depend on the old receiver, so a
field that the decoder leaves untouched for this input ends with its zero value. -/
theorem UnmarshalBinary_atomic {H P A : Type} :
    (∀ (read : ReadJSONAt (FcInterface H P))
          (m : FcInterface H P) (b : Bytes),
        (∀ err, (read b FcInterface.zero).2 = some err →
          FcInterface.UnmarshalBinary read m b = (m, some err)) ∧
        ((read b FcInterface.zero).2 = none →
          FcInterface.UnmarshalBinary read m b
            = ((read b FcInterface.zero).1, none)) ∧
        (∀ (F : Type) (field : FcInterface H P → F),
          (read b FcInterface.zero).2 = none →
          (∀ target, field (read b target).1 = field target) →
          field (FcInterface.UnmarshalBinary read m b).1
            = field FcInterface.zero)) ∧
      (∀ (read : ReadJSONAt (ClusterPeerSetupResponse H A))
          (m : ClusterPeerSetupResponse H A) (b : Bytes),
        (∀ err, (read b ClusterPeerSetupResponse.zero).2 = some err →
          ClusterPeerSetupResponse.UnmarshalBinary read m b = (m, some err)) ∧
        ((read b ClusterPeerSetupResponse.zero).2 = none →
          ClusterPeerSetupResponse.UnmarshalBinary read m b
            = ((read b ClusterPeerSetupResponse.zero).1, none)) ∧
        (∀ (F : Type) (field : ClusterPeerSetupResponse H A → F),
          (read b ClusterPeerSetupResponse.zero).2 = none →
          (∀ target, field (read b target).1 = field target) →
          field (ClusterPeerSetupResponse.UnmarshalBinary read m b).1
            = field ClusterPeerSetupResponse.zero)) ∧
      (∀ (read : ReadJSONAt (FcInterfaceLinks H))
          (m : FcInterfaceLinks H) (b : Bytes),
        (∀ err, (read b FcInterfaceLinks.zero).2 = some err →
          FcInterfaceLinks.UnmarshalBinary read m b = (m, some err)) ∧
        ((read b FcInterfaceLinks.zero).2 = none →
          FcInterfaceLinks.UnmarshalBinary read m b
            = ((read b FcInterfaceLinks.zero).1, none)) ∧
        (∀ (F : Type) (field : FcInterfaceLinks H → F),
          (read b FcInterfaceLinks.zero).2 = none →
          (∀ target, field (read b target).1 = field target) →
          field (FcInterfaceLinks.UnmarshalBinary read m b).1
            = field FcInterfaceLinks.zero)) ∧
      (∀ (read : ReadJSONAt (FcInterfaceLocation H P))
          (m : FcInterfaceLocation H P) (b : Bytes),
        (∀ err, (read b FcInterfaceLocation.zero).2 = some err →
          FcInterfaceLocation.UnmarshalBinary read m b = (m, some err)) ∧
        ((read b FcInterfaceLocation.zero).2 = none →
          FcInterfaceLocation.UnmarshalBinary read m b
            = ((read b FcInterfaceLocation.zero).1, none)) ∧
        (∀ (F : Type) (field : FcInterfaceLocation H P → F),
          (read b FcInterfaceLocation.zero).2 = none →
          (∀ target, field (read b target).1 = field target) →
          field (FcInterfaceLocation.UnmarshalBinary read m b).1
            = field FcInterfaceLocation.zero)) ∧
      (∀ (read : ReadJSONAt (FcInterfaceLocationNode H))
          (m : FcInterfaceLocationNode H) (b : Bytes),
        (∀ err, (read b FcInterfaceLocationNode.zero).2 = some err →
          FcInterfaceLocationNode.UnmarshalBinary read m b = (m, some err)) ∧
        ((read b FcInterfaceLocationNode.zero).2 = none →
          FcInterfaceLocationNode.UnmarshalBinary read m b
            = ((read b FcInterfaceLocationNode.zero).1, none)) ∧
        (∀ (F : Type) (field : FcInterfaceLocationNode H → F),
          (read b FcInterfaceLocationNode.zero).2 = none →
          (∀ target, field (read b target).1 = field target) →
          field (FcInterfaceLocationNode.UnmarshalBinary read m b).1
            = field FcInterfaceLocationNode.zero)) ∧
      (∀ (read : ReadJSONAt (FcInterfaceLocationNodeLinks H))
          (m : FcInterfaceLocationNodeLinks H) (b : Bytes),
        (∀ err, (read b FcInterfaceLocationNodeLinks.zero).2 = some err →
          FcInterfaceLocationNodeLinks.UnmarshalBinary read m b = (m, some err)) ∧
        ((read b FcInterfaceLocationNodeLinks.zero).2 = none →
          FcInterfaceLocationNodeLinks.UnmarshalBinary read m b
            = ((read b FcInterfaceLocationNodeLinks.zero).1, none)) ∧
        (∀ (F : Type) (field : FcInterfaceLocationNodeLinks H → F),
          (read b FcInterfaceLocationNodeLinks.zero).2 = none →
          (∀ target, field (read b target).1 = field target) →
          field (FcInterfaceLocationNodeLinks.UnmarshalBinary read m b).1
            = field FcInterfaceLocationNodeLinks.zero)) ∧
      (∀ (read : ReadJSONAt (FcInterfaceSvmType H))
          (m : FcInterfaceSvmType H) (b : Bytes),
        (∀ err, (read b FcInterfaceSvmType.zero).2 = some err →
          FcInterfaceSvmType.UnmarshalBinary read m b = (m, some err)) ∧
        ((read b FcInterfaceSvmType.zero).2 = none →
          FcInterfaceSvmType.UnmarshalBinary read m b
            = ((read b FcInterfaceSvmType.zero).1, none)) ∧
        (∀ (F : Type) (field : FcInterfaceSvmType H → F),
          (read b FcInterfaceSvmType.zero).2 = none →
          (∀ target, field (read b target).1 = field target) →
          field (FcInterfaceSvmType.UnmarshalBinary read m b).1
            = field FcInterfaceSvmType.zero)) ∧
      (∀ (read : ReadJSONAt (FcInterfaceSvmLinksType H))
          (m : FcInterfaceSvmLinksType H) (b : Bytes),
        (∀ err, (read b FcInterfaceSvmLinksType.zero).2 = some err →
          FcInterfaceSvmLinksType.UnmarshalBinary read m b = (m, some err)) ∧
        ((read b FcInterfaceSvmLinksType.zero).2 = none →
          FcInterfaceSvmLinksType.UnmarshalBinary read m b
            = ((read b FcInterfaceSvmLinksType.zero).1, none)) ∧
        (∀ (F : Type) (field : FcInterfaceSvmLinksType H → F),
          (read b FcInterfaceSvmLinksType.zero).2 = none →
          (∀ target, field (read b target).1 = field target) →
          field (FcInterfaceSvmLinksType.UnmarshalBinary read m b).1
            = field FcInterfaceSvmLinksType.zero)) ∧
      (∀ (read : ReadJSONAt (ClusterPeerSetupResponseInlineAuthentication))
          (m : ClusterPeerSetupResponseInlineAuthentication) (b : Bytes),
        (∀ err, (read b ClusterPeerSetupResponseInlineAuthentication.zero).2 = some err →
          ClusterPeerSetupResponseInlineAuthentication.UnmarshalBinary read m b = (m, some err)) ∧
        ((read b ClusterPeerSetupResponseInlineAuthentication.zero).2 = none →
          ClusterPeerSetupResponseInlineAuthentication.UnmarshalBinary read m b
            = ((read b ClusterPeerSetupResponseInlineAuthentication.zero).1, none)) ∧
        (∀ (F : Type) (field : ClusterPeerSetupResponseInlineAuthentication → F),
          (read b ClusterPeerSetupResponseInlineAuthentication.zero).2 = none →
          (∀ target, field (read b target).1 = field target) →
          field (ClusterPeerSetupResponseInlineAuthentication.UnmarshalBinary read m b).1
            = field ClusterPeerSetupResponseInlineAuthentication.zero)) ∧
      (∀ (read : ReadJSONAt (ClusterPeerSetupResponseInlineLinks H))
          (m : ClusterPeerSetupResponseInlineLinks H) (b : Bytes),
        (∀ err, (read b ClusterPeerSetupResponseInlineLinks.zero).2 = some err →
          ClusterPeerSetupResponseInlineLinks.UnmarshalBinary read m b = (m, some err)) ∧
        ((read b ClusterPeerSetupResponseInlineLinks.zero).2 = none →
          ClusterPeerSetupResponseInlineLinks.UnmarshalBinary read m b
            = ((read b ClusterPeerSetupResponseInlineLinks.zero).1, none)) ∧
        (∀ (F : Type) (field : ClusterPeerSetupResponseInlineLinks H → F),
          (read b ClusterPeerSetupResponseInlineLinks.zero).2 = none →
          (∀ target, field (read b target).1 = field target) →
          field (ClusterPeerSetupResponseInlineLinks.UnmarshalBinary read m b).1
            = field ClusterPeerSetupResponseInlineLinks.zero)) ∧
      (∀ (T : Type) (zero : T) (read : ReadJSONAt T) (m : T) (b : Bytes),
        (∀ err, (read b zero).2 = some err → unmarshalBinary zero read m b = (m, some err)) ∧
        ((read b zero).2 = none → unmarshalBinary zero read m b = ((read b zero).1, none)) ∧
        (∀ (F : Type) (field : T → F), (read b zero).2 = none →
          (∀ target, field (read b target).1 = field target) →
          field (unmarshalBinary zero read m b).1 = field zero)) := by
  refine ⟨?_, ?_, ?_, ?_, ?_, ?_, ?_, ?_, ?_, ?_, ?_⟩
  · exact fun read m b => unmarshalBinary_atomic _ read m b
  · exact fun read m b => unmarshalBinary_atomic _ read m b
  · exact fun read m b => unmarshalBinary_atomic _ read m b
  · exact fun read m b => unmarshalBinary_atomic _ read m b
  · exact fun read m b => unmarshalBinary_atomic _ read m b
  · exact fun read m b => unmarshalBinary_atomic _ read m b
  · exact fun read m b => unmarshalBinary_atomic _ read m b
  · exact fun read m b => unmarshalBinary_atomic _ read m b
  · exact fun read m b => unmarshalBinary_atomic _ read m b
  · exact fun read m b => unmarshalBinary_atomic _ read m b
  · exact fun T zero read m b => unmarshalBinary_atomic zero read m b

/-- Witness of C19: decoding an input that only sets the name into an interface for FCP
leaves an interface without data protocol. -/
theorem UnmarshalBinary_atomic_witness :
    ((nameDecoder [123, 125] FcInterface.zero).2 = none ∧
      (∀ target, (nameDecoder [123, 125] target).1.DataProtocol = target.DataProtocol)) ∧
    (FcInterface.UnmarshalBinary nameDecoder fcpInterface [123, 125]).1.DataProtocol
      = (FcInterface.zero : FcInterface Unit Unit).DataProtocol :=
  ⟨⟨rfl, fun _ => rfl⟩,
    ((UnmarshalBinary_atomic (H := Unit) (P := Unit) (A := Unit)).1 nameDecoder fcpInterface
      [123, 125]).2.2 String (fun x => x.DataProtocol) rfl (fun _ => rfl)⟩

/-! ## The interface `OntapAPI` -/

/-- C20, the claim refuted: `VolumeUsedSize` returns the size as a signed `int` and
`VolumeSetSize` takes the new size as a `string`; neither is an unsigned integer type. -/
theorem OntapAPI_size_not_always_unsigned :
    (OntapAPI.method "VolumeUsedSize").map Method.sizeTypes = some ["int"] ∧
      isUnsignedInteger "int" = false ∧
      (OntapAPI.method "VolumeSetSize").map Method.sizeTypes = some ["string"] ∧
      isUnsignedInteger "string" = false := by
  refine ⟨by rfl, by decide, by rfl, by decide⟩

/-- C20 as amended: each of the eight size operations is declared in `OntapAPI`;
`VolumeSize` and `FlexgroupSize` return the size as `uint64`; `VolumeUsedSize`,
`FlexgroupUsedSize` and `LunSize` return it as a signed `int`; `VolumeSetSize` and
`FlexgroupSetSize` take the new size as a `string`, and `LunSetSize` takes it as a `string`
and returns a `uint64`. -/
theorem OntapAPI_size_types :
    sizeOperations.map (fun name => (OntapAPI.method name).map Method.sizeTypes)
      = [some ["uint64"], some ["int"], some ["uint64"], some ["int"], some ["int"],
         some ["string", "uint64"], some ["string"], some ["string"]] := by
  rfl

/-- C21, the claim refuted: `VolumeGetType` has no `context.Context` parameter,
`TieringPolicyValue` returns a bare string, and `EmsAutosupportLog` returns nothing. -/
theorem OntapAPI_not_uniform :
    (OntapAPI.method "VolumeGetType").map Method.hasContext = some false ∧
      (OntapAPI.method "TieringPolicyValue").map Method.hasErrorOrBool = some false ∧
      (OntapAPI.method "TieringPolicyValue").map (fun m => m.Results) = some ["string"] ∧
      (OntapAPI.method "EmsAutosupportLog").map (fun m => m.Results) = some [] := by
  refine ⟨by rfl, by rfl, by rfl, by rfl⟩

/-- C21 as amended: `OntapAPI` declares 98 methods. All but eleven of them, `VolumeGetType`
and ten SnapMirror methods, take a `context.Context`, and those that take one take it as
their first parameter. All but `EmsAutosupportLog`, which returns nothing, and
`TieringPolicyValue`, which returns a string, have an `error` or a `bool` among their results;
`SupportsFeature` returns only a `bool`. -/
theorem OntapAPI_context_and_error :
    OntapAPI.length = 98 ∧
      (OntapAPI.filter (fun m => !m.hasContext)).map (fun m => m.Name)
        = ["SnapmirrorDeleteViaDestination", "VolumeGetType", "SnapmirrorGet",
           "SnapmirrorCreate", "SnapmirrorInitialize", "SnapmirrorResync", "SnapmirrorDelete",
           "SnapmirrorQuiesce", "SnapmirrorAbort", "SnapmirrorBreak", "SnapmirrorRelease"] ∧
      OntapAPI.all (fun m => m.hasContext == m.contextFirst) = true ∧
      (OntapAPI.filter (fun m => !m.hasErrorOrBool)).map (fun m => m.Name)
        = ["EmsAutosupportLog", "TieringPolicyValue"] ∧
      (OntapAPI.method "SupportsFeature").map (fun m => m.Results) = some ["bool"] := by
  refine ⟨by rfl, by rfl, by rfl, by rfl, by rfl⟩

/-! ## The resource managers, modelled from the specification -/

/-- C22: for every resource family the destroy method is declared in `OntapAPI` and returns
an `error` only; in the model written from the specification, destroy of a resource that does
not exist returns nil and leaves the array as it is, and a second destroy after a first one
returns nil as well. -/
theorem Destroy_idempotent (a : StorageArray) (f : Family) (id : String)
    (habsent : id ∉ a f) :
    (OntapAPI.method f.destroyMethod).map (fun m => m.Results) = some ["error"] ∧
      Destroy none a f id = (none, a) ∧
      (∀ (b : StorageArray) (g : Family) (x : String),
        (Destroy none (Destroy none b g x).2 g x).1 = none ∧
        (Destroy none (Destroy none b g x).2 g x).2 = (Destroy none b g x).2) := by
  refine ⟨?_, Destroy_absent a f id habsent, ?_⟩
  · cases f <;> rfl
  · intro b g x
    rw [Destroy_absent _ g x (Destroy_makes_absent b g x)]
    exact ⟨rfl, rfl⟩

/-- Witness of C22: destroying the volume `vol2`, which the sample array does not hold. -/
theorem Destroy_idempotent_witness :
    "vol2" ∉ oneVolumeArray Family.Volume ∧
      (Destroy none oneVolumeArray Family.Volume "vol2").1 = none :=
  ⟨by decide,
    congrArg Prod.fst
      (Destroy_idempotent oneVolumeArray Family.Volume "vol2" (by decide)).2.1⟩

/-- C23: in the model written from the specification, under the entity escaping of a markup
transport and under the backslash escaping of a quoted-string transport alike, whenever
`LunCreate` with comment `c` succeeds, `LunGetComment` on the same path then returns exactly
`c` and no error; the array itself holds the escaped comment. -/
theorem LunComment_roundtrip (esc : Escaping)
    (hesc : esc = entityEscaping ∨ esc = backslashEscaping) (lun : Lun) (luns : List Lun)
    (hcreated : (LunCreate esc none lun luns).1 = none) :
    LunGetComment esc none lun.Path (LunCreate esc none lun luns).2 = (lun.Comment, none) ∧
      ((LunCreate esc none lun luns).2.find? (fun l => l.Path = lun.Path)).map
          (fun l => l.Comment) = some (esc.escape lun.Comment) := by
  have hloss : ∀ c, esc.unescape (esc.escape c) = c := by
    rcases hesc with h | h
    · subst h
      exact entityEscaping_lossless
    · subst h
      exact backslashEscaping_lossless
  refine ⟨LunComment_roundtrip_of_lossless esc hloss lun luns hcreated, ?_⟩
  unfold LunCreate at hcreated ⊢
  cases hfind : luns.find? (fun l => decide (l.Path = lun.Path)) with
  | none =>
    have hp : (esc.onWire lun).Path = lun.Path := rfl
    simp [hfind, List.find?_append, List.find?_cons, hp, Escaping.onWire]
  | some existing =>
    simp only [hfind] at hcreated ⊢
    by_cases heq : existing = esc.onWire lun
    · simp only [heq, if_true]
      rw [heq] at hfind
      simp [hfind, Escaping.onWire]
    · simp [heq, Errorf] at hcreated

/-- Witness of C23: a LUN whose JSON comment holds double quotes, created on an empty array
through the entity escaping, gives the comment back. -/
theorem LunComment_roundtrip_witness :
    ((entityEscaping = entityEscaping ∨ entityEscaping = backslashEscaping) ∧
      (LunCreate entityEscaping none sampleLun []).1 = none) ∧
    entityEscaping.escape sampleLun.Comment
      = "\x7b&quot;lunAttributes&quot;:\x7b&quot;fstype&quot;:&quot;ext4&quot;\x7d\x7d" ∧
    LunGetComment entityEscaping none sampleLun.Path
        (LunCreate entityEscaping none sampleLun []).2 = (sampleLun.Comment, none) :=
  ⟨⟨Or.inl rfl, rfl⟩, by decide,
    (LunComment_roundtrip entityEscaping (Or.inl rfl) sampleLun [] rfl).1⟩

/-! ## `NewAPIResponse` and the recovery branch -/

/-- C24: a response built by `NewAPIResponse(status, reason, errno)` gives the three arguments
back through `Status()`, `Reason()` and `Errno()`, and its `APIName()` is the empty string. -/
theorem NewAPIResponse_reads_back (status reason errno : String) :
    (NewAPIResponse status reason errno).Status = status ∧
      (NewAPIResponse status reason errno).Reason = reason ∧
      (NewAPIResponse status reason errno).Errno = errno ∧
      (NewAPIResponse status reason errno).APIName = "" :=
  ⟨rfl, rfl, rfl, rfl⟩

/-- C25: for every response and every `errorIn` the body of `GetErrorAbstraction` ends without
a panic, so the deferred closure changes nothing, and the result is `ZapiError{}` if and only
if `errorIn` is `ZapiError{}`. -/
theorem recovery_branch_unreachable (orbit : Nat → Nat → Bool) (ctx : Context)
    (response : Option APIResponse) (errorIn : Error) :
    (GetErrorAbstractionBody orbit ctx response errorIn).panicking = none ∧
      recoverGuard (GetErrorAbstractionBody orbit ctx response errorIn)
        = GetErrorAbstractionBody orbit ctx response errorIn ∧
      (GetErrorAbstraction orbit ctx response errorIn = some (GoError.zapi ZapiError.zero)
        ↔ errorIn = some (GoError.zapi ZapiError.zero)) := by
  have hp := body_never_panics orbit ctx response errorIn
  refine ⟨hp, ?_, ?_⟩
  · unfold recoverGuard
    rw [hp]
  · rw [GetErrorAbstraction_eq]
    cases errorIn with
    | some e => simp
    | none =>
      cases response with
      | none => simp [Errorf]
      | some r =>
        by_cases hpass : EqualFold orbit r.Status "passed" = true <;> simp [hpass, Errorf]

end Trident
